import Mathlib

/-!
# Hook registration and classify dispatch of `ebpf_l2_hook.c`

A shallow embedding of `src/src/ebpf/sys/ebpf_l2_hook.c`.

* The two globals of the file (`_fwp_engine_handle` and the table
  `_ebpf_wfp_callout_state`) are the fields of `State`; every function that
  touches them takes a `State` and returns the new one.
* The filtering engine is external.  It is a parameter: an `Engine` answers
  every call from the history of the calls made so far, so that any
  deterministic engine, and any pattern of failures, is an instance.
  Every call made is appended to `State.log` together with its answer.
* `goto Exit` is a call of the function that embeds the `Exit:` block.
-/

namespace EbpfL2Hook

/-! ## Platform types -/

/-- The status type of the host platform, a signed 32-bit value in C. No arithmetic
is done on it by this file, only the sign test of `NT_SUCCESS`. -/
abbrev NTSTATUS := Int

/-- The value `status` is initialised with. -/
def STATUS_SUCCESS : NTSTATUS := 0

/-- Modelled from the spec: the platform macro `NT_SUCCESS` is not in the repository;
"status codes follow the native success/failure convention of the host platform
(non-negative = success)". -/
def NT_SUCCESS (status : NTSTATUS) : Bool := decide (0 ≤ status)

/-- An engine session handle; `NULL` is `0`. -/
abbrev HANDLE := Nat

/-- The null handle. -/
def NULL : HANDLE := 0

/-- The GUIDs the file defines (`DEFINE_GUID`) and the layer GUIDs it takes from the
platform headers, by name. -/
inductive GUID where
  | EBPF_HOOK_SUBLAYER
  | EBPF_HOOK_L2_CALLOUT
  | EBPF_HOOK_ALE_BIND_REDIRECT_CALLOUT
  | EBPF_HOOK_ALE_RESOURCE_ALLOCATION_CALLOUT
  | EBPF_HOOK_ALE_RESOURCE_RELEASE_CALLOUT
  | FWPM_LAYER_INBOUND_MAC_FRAME_ETHERNET
  | FWPM_LAYER_ALE_RESOURCE_ASSIGNMENT_V4
  | FWPM_LAYER_ALE_RESOURCE_RELEASE_V4
  deriving DecidableEq, Repr

/-- The action types the file names; `other` stands for any further value the 32-bit
field can hold. -/
inductive FWP_ACTION_TYPE where
  | FWP_ACTION_BLOCK
  | FWP_ACTION_PERMIT
  | FWP_ACTION_CALLOUT_TERMINATING
  | other (raw : Nat)
  deriving DecidableEq, Repr

/-- The classify callbacks of the file, by name (the `classify_fn` column of the table). -/
inductive FWPS_CALLOUT_CLASSIFY_FN3 where
  | ebpf_hook_layer_2_classify
  | ebpf_hook_resource_allocation_classify
  | ebpf_hook_resource_release_classify
  deriving DecidableEq, Repr

/-- The notify callback of the file, by name. -/
inductive FWPS_CALLOUT_NOTIFY_FN3 where
  | ebpf_hook_no_op_notify
  deriving DecidableEq, Repr

/-- The flow-delete callback of the file, by name. -/
inductive FWPS_CALLOUT_FLOW_DELETE_NOTIFY_FN0 where
  | ebpf_hook_no_op_flow_delete
  deriving DecidableEq, Repr

/-! ## The callout table -/

/-- The C struct `ebpf_wfp_callout_state_t`. -/
structure ebpf_wfp_callout_state_t where
  callout_guid : GUID
  layer_guid : GUID
  classify_fn : FWPS_CALLOUT_CLASSIFY_FN3
  notify_fn : FWPS_CALLOUT_NOTIFY_FN3
  delete_fn : FWPS_CALLOUT_FLOW_DELETE_NOTIFY_FN0
  name : String
  description : String
  filter_action_type : FWP_ACTION_TYPE
  assigned_callout_id : Nat
  deriving DecidableEq, Repr

/-- The number of entries of the table, `RTL_COUNT_OF(_ebpf_wfp_callout_state)`. -/
abbrev RTL_COUNT_OF : Nat := 3

/-- The static initialiser of `_ebpf_wfp_callout_state`: three entries, whose
`assigned_callout_id` is not named by the initialiser and so starts at `0`. -/
def initial_callout_state : Fin RTL_COUNT_OF → ebpf_wfp_callout_state_t
  | 0 =>
    { callout_guid := .EBPF_HOOK_L2_CALLOUT
      layer_guid := .FWPM_LAYER_INBOUND_MAC_FRAME_ETHERNET
      classify_fn := .ebpf_hook_layer_2_classify
      notify_fn := .ebpf_hook_no_op_notify
      delete_fn := .ebpf_hook_no_op_flow_delete
      name := "L2 XDP Callout"
      description := "L2 callout driver for eBPF at XDP-like layer"
      filter_action_type := .FWP_ACTION_CALLOUT_TERMINATING
      assigned_callout_id := 0 }
  | 1 =>
    { callout_guid := .EBPF_HOOK_ALE_RESOURCE_ALLOCATION_CALLOUT
      layer_guid := .FWPM_LAYER_ALE_RESOURCE_ASSIGNMENT_V4
      classify_fn := .ebpf_hook_resource_allocation_classify
      notify_fn := .ebpf_hook_no_op_notify
      delete_fn := .ebpf_hook_no_op_flow_delete
      name := "Resource Allocation eBPF Callout"
      description := "Resource Allocation callout driver for eBPF"
      filter_action_type := .FWP_ACTION_CALLOUT_TERMINATING
      assigned_callout_id := 0 }
  | 2 =>
    { callout_guid := .EBPF_HOOK_ALE_RESOURCE_RELEASE_CALLOUT
      layer_guid := .FWPM_LAYER_ALE_RESOURCE_RELEASE_V4
      classify_fn := .ebpf_hook_resource_release_classify
      notify_fn := .ebpf_hook_no_op_notify
      delete_fn := .ebpf_hook_no_op_flow_delete
      name := "Resource Release eBPF Callout"
      description := "Resource Release callout driver for eBPF"
      filter_action_type := .FWP_ACTION_CALLOUT_TERMINATING
      assigned_callout_id := 0 }

/-! ## The filtering engine -/

/-- A call into the filtering engine, with the arguments the file passes. -/
inductive Call where
  | FwpmEngineOpen
  | FwpmTransactionBegin (engine : HANDLE)
  | FwpmSubLayerAdd (engine : HANDLE) (subLayerKey : GUID)
  | FwpsCalloutRegister (device_object : Nat) (calloutKey : GUID)
      (classifyFn : FWPS_CALLOUT_CLASSIFY_FN3)
  | FwpmCalloutAdd (engine : HANDLE) (calloutKey : GUID) (applicableLayer : GUID)
  | FwpmFilterAdd (engine : HANDLE) (layerKey : GUID) (action_type : FWP_ACTION_TYPE)
      (calloutKey : GUID) (subLayerKey : GUID)
  | FwpmTransactionCommit (engine : HANDLE)
  | FwpmTransactionAbort (engine : HANDLE)
  | FwpmEngineClose (engine : HANDLE)
  | FwpsCalloutUnregisterById (id : Nat)
  deriving DecidableEq, Repr

/-- What the engine answers: a status, and the value it hands back through the
out-parameter of the call (the session handle of `FwpmEngineOpen`, the callout id of
`FwpsCalloutRegister`; unused by the other calls). -/
structure Resp where
  status : NTSTATUS
  out : Nat
  deriving DecidableEq, Repr

/-- One engine call together with its answer. -/
structure Event where
  call : Call
  resp : Resp
  deriving DecidableEq, Repr

/-- The engine: it answers a call from the history of the calls made before it. -/
abbrev Engine := List Event → Call → Resp

/-- The steps of the registration sequence whose status the code tests: session open,
transaction begin, sub-layer add, callout register, callout add, filter add, commit.
The three unwinding calls (abort, close, unregister) are the others. -/
def Call.is_step : Call → Bool
  | .FwpmEngineOpen => true
  | .FwpmTransactionBegin _ => true
  | .FwpmSubLayerAdd _ _ => true
  | .FwpsCalloutRegister _ _ _ => true
  | .FwpmCalloutAdd _ _ _ => true
  | .FwpmFilterAdd _ _ _ _ _ => true
  | .FwpmTransactionCommit _ => true
  | .FwpmTransactionAbort _ => false
  | .FwpmEngineClose _ => false
  | .FwpsCalloutUnregisterById _ => false

/-! ## Program state -/

/-- The mutable globals of the file, and the log of the engine calls made. -/
structure State where
  _fwp_engine_handle : HANDLE
  _ebpf_wfp_callout_state : Fin RTL_COUNT_OF → ebpf_wfp_callout_state_t
  log : List Event

/-- The state at driver load: no session, the table as initialised, no call made. -/
def initial_state : State :=
  { _fwp_engine_handle := NULL
    _ebpf_wfp_callout_state := initial_callout_state
    log := [] }

/-- Make one engine call: ask the engine, and log the call with its answer. -/
def engine_call (e : Engine) (c : Call) (s : State) : Resp × State :=
  let r := e s.log c
  (r, { s with log := s.log ++ [⟨c, r⟩] })

/-- The store `_ebpf_wfp_callout_state[index].assigned_callout_id = id`. -/
def set_assigned_callout_id (s : State) (index : Fin RTL_COUNT_OF) (id : Nat) : State :=
  { s with
    _ebpf_wfp_callout_state :=
      Function.update s._ebpf_wfp_callout_state index
        { s._ebpf_wfp_callout_state index with assigned_callout_id := id } }

/-- Modelled from the spec: the engine function `FwpmEngineOpen` is not in the
repository; `open_session() -> handle | error`. It is called with
`&_fwp_engine_handle`: on success the handle the engine opened is stored there, on
failure the global is left as it was. -/
def FwpmEngineOpen (e : Engine) (s : State) : NTSTATUS × State :=
  let (r, s) := engine_call e .FwpmEngineOpen s
  if NT_SUCCESS r.status then (r.status, { s with _fwp_engine_handle := r.out })
  else (r.status, s)

/-- Modelled from the spec: the engine function `FwpsCalloutRegister` is not in the
repository; `register_callout(...) -> assigned_id | error`. It is called with
`&callout_state->assigned_callout_id`: on success the id the engine assigned is stored
there, on failure the field is left as it was. -/
def FwpsCalloutRegister (e : Engine) (device_object : Nat) (index : Fin RTL_COUNT_OF)
    (s : State) : NTSTATUS × State :=
  let callout_state := s._ebpf_wfp_callout_state index
  let (r, s) := engine_call e
    (.FwpsCalloutRegister device_object callout_state.callout_guid callout_state.classify_fn) s
  if NT_SUCCESS r.status then (r.status, set_assigned_callout_id s index r.out)
  else (r.status, s)

/-! ## Registration -/

/-- The `Exit:` block of `ebpf_hook_register_wfp_callout`. -/
def ebpf_hook_register_wfp_callout_exit (e : Engine) (index : Fin RTL_COUNT_OF)
    (status : NTSTATUS) (was_callout_registered : Bool) (s : State) : NTSTATUS × State :=
  if !NT_SUCCESS status then
    if was_callout_registered then
      let (_, s) := engine_call e
        (.FwpsCalloutUnregisterById (s._ebpf_wfp_callout_state index).assigned_callout_id) s
      (status, set_assigned_callout_id s index 0)
    else (status, s)
  else (status, s)

/-- The C function `ebpf_hook_register_wfp_callout`, called with
`&_ebpf_wfp_callout_state[index]`: register the callout, add it, add its filter. -/
def ebpf_hook_register_wfp_callout (e : Engine) (index : Fin RTL_COUNT_OF)
    (device_object : Nat) (s : State) : NTSTATUS × State :=
  let (status, s) := FwpsCalloutRegister e device_object index s
  if !NT_SUCCESS status then
    ebpf_hook_register_wfp_callout_exit e index status false s
  else
    let callout_state := s._ebpf_wfp_callout_state index
    let (r, s) := engine_call e
      (.FwpmCalloutAdd s._fwp_engine_handle callout_state.callout_guid
        callout_state.layer_guid) s
    let status := r.status
    if !NT_SUCCESS status then
      ebpf_hook_register_wfp_callout_exit e index status true s
    else
      let (r, s) := engine_call e
        (.FwpmFilterAdd s._fwp_engine_handle callout_state.layer_guid
          callout_state.filter_action_type callout_state.callout_guid
          .EBPF_HOOK_SUBLAYER) s
      let status := r.status
      if !NT_SUCCESS status then
        ebpf_hook_register_wfp_callout_exit e index status true s
      else
        ebpf_hook_register_wfp_callout_exit e index status true s

/-- The `Exit:` block of `ebpf_hook_register_callouts`. -/
def ebpf_hook_register_callouts_exit (e : Engine) (status : NTSTATUS)
    (is_engined_opened is_in_transaction : Bool) (s : State) : NTSTATUS × State :=
  if !NT_SUCCESS status then
    let s :=
      if is_in_transaction then
        (engine_call e (.FwpmTransactionAbort s._fwp_engine_handle) s).2
      else s
    if is_engined_opened then
      let (_, s) := engine_call e (.FwpmEngineClose s._fwp_engine_handle) s
      (status, { s with _fwp_engine_handle := NULL })
    else (status, s)
  else (status, s)

/-- The `for` loop of `ebpf_hook_register_callouts` over the indices still to visit:
it stops at the first descriptor whose registration fails (`goto Exit`), which the
boolean of the result reports. -/
def ebpf_hook_register_callouts_loop (e : Engine) (device_object : Nat) :
    List (Fin RTL_COUNT_OF) → NTSTATUS → State → Bool × NTSTATUS × State
  | [], status, s => (true, status, s)
  | index :: rest, _, s =>
    let (status, s) := ebpf_hook_register_wfp_callout e index device_object s
    if !NT_SUCCESS status then (false, status, s)
    else ebpf_hook_register_callouts_loop e device_object rest status s

/-- The C function `ebpf_hook_register_callouts`. -/
def ebpf_hook_register_callouts (e : Engine) (device_object : Nat) (s : State) :
    NTSTATUS × State :=
  let status := STATUS_SUCCESS
  if s._fwp_engine_handle ≠ NULL then
    ebpf_hook_register_callouts_exit e status false false s
  else
    let (status, s) := FwpmEngineOpen e s
    if !NT_SUCCESS status then
      ebpf_hook_register_callouts_exit e status false false s
    else
      let (r, s) := engine_call e (.FwpmTransactionBegin s._fwp_engine_handle) s
      let status := r.status
      if !NT_SUCCESS status then
        ebpf_hook_register_callouts_exit e status true false s
      else
        let (r, s) := engine_call e
          (.FwpmSubLayerAdd s._fwp_engine_handle .EBPF_HOOK_SUBLAYER) s
        let status := r.status
        if !NT_SUCCESS status then
          ebpf_hook_register_callouts_exit e status true true s
        else
          let (completed, status, s) :=
            ebpf_hook_register_callouts_loop e device_object
              (List.finRange RTL_COUNT_OF) status s
          if !completed then
            ebpf_hook_register_callouts_exit e status true true s
          else
            let (r, s) := engine_call e (.FwpmTransactionCommit s._fwp_engine_handle) s
            let status := r.status
            if !NT_SUCCESS status then
              ebpf_hook_register_callouts_exit e status true true s
            else
              ebpf_hook_register_callouts_exit e status true false s

/-! ## Teardown -/

/-- The `for` loop of `ebpf_hook_unregister_callouts`. -/
def ebpf_hook_unregister_callouts_loop (e : Engine) : List (Fin RTL_COUNT_OF) → State → State
  | [], s => s
  | index :: rest, s =>
    let (_, s) := engine_call e
      (.FwpsCalloutUnregisterById (s._ebpf_wfp_callout_state index).assigned_callout_id) s
    ebpf_hook_unregister_callouts_loop e rest s

/-- The C function `ebpf_hook_unregister_callouts`. -/
def ebpf_hook_unregister_callouts (e : Engine) (s : State) : State :=
  if s._fwp_engine_handle ≠ NULL then
    let (_, s) := engine_call e (.FwpmEngineClose s._fwp_engine_handle) s
    let s := { s with _fwp_engine_handle := NULL }
    ebpf_hook_unregister_callouts_loop e (List.finRange RTL_COUNT_OF) s
  else s


/-! ## The classify routine of the link layer -/

/-- The C struct `xdp_md_t`, three 64-bit fields. -/
structure xdp_md_t where
  data : Nat
  data_end : Nat
  data_meta : Nat
  deriving DecidableEq, Repr

/-- The enumerator `XDP_PASS` of `xdp_action_t`. -/
def XDP_PASS : Nat := 1

/-- The enumerator `XDP_DROP` of `xdp_action_t`. -/
def XDP_DROP : Nat := 2

/-- The C struct `bind_md_t`. -/
structure bind_md_t where
  app_id_start : Nat
  app_id_end : Nat
  process_id : Nat
  socket_address : List Nat
  socket_address_length : Nat
  operation : Nat
  protocol : Nat
  deriving DecidableEq, Repr

/-- The hook family selector passed to `ebpf_core_invoke_hook`. -/
inductive ebpf_program_type_t where
  | EBPF_PROGRAM_TYPE_XDP
  | EBPF_PROGRAM_TYPE_BIND
  deriving DecidableEq, Repr

/-- The context record handed to the program through a `void*`. -/
inductive hook_context where
  | xdp (ctx : xdp_md_t)
  | bind (ctx : bind_md_t)
  deriving DecidableEq, Repr

/-- The result of `ebpf_core_invoke_hook`: success, or any other code. -/
inductive ebpf_error_code_t where
  | EBPF_ERROR_SUCCESS
  | other (code : Nat)
  deriving DecidableEq, Repr

/-- Modelled from the spec: the function `ebpf_core_invoke_hook` is declared in
`ebpf_core.h`, which is not in the repository sources shown;
`invoke(hook_family_selector, context_record_ptr, out_verdict_ptr) -> success | failure`.
It is a parameter of the classify routines: from the selector, the context and the
value `result` holds before the call, it gives the code returned and the value `result`
holds after the call. -/
abbrev invoke_hook_t :=
  ebpf_program_type_t → hook_context → Nat → ebpf_error_code_t × Nat

/-- The platform struct `NET_BUFFER`, as far as the file reads it: the 32-bit
`DataLength`, and an identity for the buffer that `NdisGetDataBuffer` is asked about. -/
structure NET_BUFFER where
  id : Nat
  DataLength : Nat
  deriving DecidableEq, Repr

/-- The platform struct `NET_BUFFER_LIST`, as far as the file reads it:
`NET_BUFFER_LIST_FIRST_NB(nbl)`, which is absent when the pointer is null. -/
structure NET_BUFFER_LIST where
  FirstNetBuffer : Option NET_BUFFER
  deriving DecidableEq, Repr

/-- The platform function `NdisGetDataBuffer`, a parameter: from the buffer and the
arguments `BytesNeeded`, `Storage`, `AlignMultiple`, `AlignOffset` it gives the address
of the data, `0` for a null pointer. -/
abbrev NdisGetDataBuffer_t := NET_BUFFER → Nat → Nat → Nat → Nat → Nat

/-- The platform struct `FWPS_CLASSIFY_OUT`, as far as the file writes it. -/
structure FWPS_CLASSIFY_OUT where
  actionType : FWP_ACTION_TYPE
  deriving DecidableEq, Repr

/-- The context record `ctx` that `ebpf_hook_layer_2_classify` builds for a network
buffer: `(uint64_t)packet_buffer`, `(uint64_t)packet_buffer + net_buffer->DataLength`
in 64-bit unsigned arithmetic, and a third field left to the zero initialisation. -/
def layer_2_ctx (NdisGetDataBuffer : NdisGetDataBuffer_t) (net_buffer : NET_BUFFER) :
    xdp_md_t :=
  let packet_buffer := NdisGetDataBuffer net_buffer net_buffer.DataLength 0 2 0
  { data := packet_buffer % 2 ^ 64
    data_end := (packet_buffer % 2 ^ 64 + net_buffer.DataLength) % 2 ^ 64
    data_meta := 0 }

/-- The C function `ebpf_hook_layer_2_classify`. It returns the classify output as
written at `done:`, and the calls of `ebpf_core_invoke_hook` it made. -/
def ebpf_hook_layer_2_classify (NdisGetDataBuffer : NdisGetDataBuffer_t)
    (ebpf_core_invoke_hook : invoke_hook_t) (layer_data : Option NET_BUFFER_LIST)
    (classify_output : FWPS_CLASSIFY_OUT) :
    FWPS_CLASSIFY_OUT × List (ebpf_program_type_t × hook_context) :=
  let action := FWP_ACTION_TYPE.FWP_ACTION_PERMIT
  let result := 0
  match layer_data with
  | none => ({ classify_output with actionType := action }, [])
  | some nbl =>
    match nbl.FirstNetBuffer with
    | none => ({ classify_output with actionType := action }, [])
    | some net_buffer =>
      let ctx := layer_2_ctx NdisGetDataBuffer net_buffer
      let (code, result) :=
        ebpf_core_invoke_hook .EBPF_PROGRAM_TYPE_XDP (.xdp ctx) result
      let action :=
        if code = .EBPF_ERROR_SUCCESS then
          if result = XDP_PASS then FWP_ACTION_TYPE.FWP_ACTION_PERMIT
          else if result = XDP_DROP then FWP_ACTION_TYPE.FWP_ACTION_BLOCK
          else action
        else action
      ({ classify_output with actionType := action },
        [(.EBPF_PROGRAM_TYPE_XDP, .xdp ctx)])

/-! ## The classify routines of the bind layers -/

/-- The enumerator `BIND_OPERATION_BIND` of `bind_operation_t`. -/
def BIND_OPERATION_BIND : Nat := 0

/-- The enumerator `BIND_OPERATION_POST_BIND` of `bind_operation_t`. -/
def BIND_OPERATION_POST_BIND : Nat := 1

/-- The enumerator `BIND_OPERATION_UNBIND` of `bind_operation_t`. -/
def BIND_OPERATION_UNBIND : Nat := 2

/-- The enumerator `BIND_PERMIT` of `bind_action_t`. -/
def BIND_PERMIT : Nat := 0

/-- The enumerator `BIND_DENY` of `bind_action_t`. -/
def BIND_DENY : Nat := 1

/-- The enumerator `BIND_REDIRECT` of `bind_action_t`. -/
def BIND_REDIRECT : Nat := 2

/-- The platform struct `FWP_BYTE_BLOB`: a 32-bit size and the address of the data. -/
structure FWP_BYTE_BLOB where
  size : Nat
  data : Nat
  deriving DecidableEq, Repr

/-- The platform union `FWP_VALUE`, by the members the file reads; `byteBlob` is the
blob the member points to. -/
structure FWP_VALUE where
  uint8 : Nat
  uint16 : Nat
  uint32 : Nat
  byteBlob : FWP_BYTE_BLOB
  deriving DecidableEq, Repr

/-- The platform struct `FWPS_INCOMING_VALUE`. -/
structure FWPS_INCOMING_VALUE where
  value : FWP_VALUE
  deriving DecidableEq, Repr

/-- The indices of `incomingValue` the file uses, by name. -/
inductive FWPS_FIELD where
  | FWPS_FIELD_ALE_RESOURCE_ASSIGNMENT_V4_ALE_APP_ID
  | FWPS_FIELD_ALE_RESOURCE_ASSIGNMENT_V4_IP_LOCAL_ADDRESS
  | FWPS_FIELD_ALE_RESOURCE_ASSIGNMENT_V4_IP_LOCAL_PORT
  | FWPS_FIELD_ALE_RESOURCE_ASSIGNMENT_V4_IP_PROTOCOL
  | FWPS_FIELD_ALE_RESOURCE_RELEASE_V4_ALE_APP_ID
  | FWPS_FIELD_ALE_RESOURCE_RELEASE_V4_IP_LOCAL_ADDRESS
  | FWPS_FIELD_ALE_RESOURCE_RELEASE_V4_IP_LOCAL_PORT
  | FWPS_FIELD_ALE_RESOURCE_RELEASE_V4_IP_PROTOCOL
  deriving DecidableEq, Repr

/-- The platform struct `FWPS_INCOMING_VALUES`, as far as the file reads it. -/
structure FWPS_INCOMING_VALUES where
  incomingValue : FWPS_FIELD → FWPS_INCOMING_VALUE

/-- The platform struct `FWPS_INCOMING_METADATA_VALUES`, as far as the file reads it. -/
structure FWPS_INCOMING_METADATA_VALUES where
  processId : Nat
  deriving DecidableEq, Repr

/-- The platform constant `AF_INET`. -/
def AF_INET : Nat := 2

/-- The platform struct `SOCKADDR_IN`: a 16-bit family, a 16-bit port, a 32-bit address
and eight bytes `sin_zero`. -/
structure SOCKADDR_IN where
  sin_family : Nat
  sin_port : Nat
  sin_addr : Nat
  sin_zero : List Nat
  deriving DecidableEq, Repr

/-- The initialiser `SOCKADDR_IN addr = {AF_INET}`: the family, every other member zero. -/
def SOCKADDR_IN.init (family : Nat) : SOCKADDR_IN :=
  { sin_family := family, sin_port := 0, sin_addr := 0, sin_zero := List.replicate 8 0 }

/-- The sixteen bytes of a `SOCKADDR_IN` in memory, as `memcpy` reads them on the
little-endian platform the driver is built for. -/
def SOCKADDR_IN.bytes (a : SOCKADDR_IN) : List Nat :=
  [a.sin_family % 256, a.sin_family / 256 % 256,
   a.sin_port % 256, a.sin_port / 256 % 256,
   a.sin_addr % 256, a.sin_addr / 256 % 256, a.sin_addr / 65536 % 256,
   a.sin_addr / 16777216 % 256] ++ (a.sin_zero ++ List.replicate 8 0).take 8

/-- The size `sizeof(addr)` of a `SOCKADDR_IN`. -/
def sizeof_SOCKADDR_IN : Nat := 16

/-- The library call `memcpy(dst, src, n)` on byte arrays: the first `n` bytes of `dst`
become those of `src`. -/
def memcpy (dst src : List Nat) (n : Nat) : List Nat :=
  src.take n ++ dst.drop n

/-- The context record `ctx` that `ebpf_hook_resource_allocation_classify` builds. The
local `ctx` is declared without an initialiser: `ctx_uninit` is what the stack held,
and the members the function does not assign keep that value. -/
def resource_allocation_ctx (incoming_fixed_values : FWPS_INCOMING_VALUES)
    (incoming_metadata_values : FWPS_INCOMING_METADATA_VALUES) (ctx_uninit : bind_md_t) :
    bind_md_t :=
  let addr := SOCKADDR_IN.init AF_INET
  let addr := { addr with
    sin_port := (incoming_fixed_values.incomingValue
      .FWPS_FIELD_ALE_RESOURCE_ASSIGNMENT_V4_IP_LOCAL_PORT).value.uint16 }
  let addr := { addr with
    sin_addr := (incoming_fixed_values.incomingValue
      .FWPS_FIELD_ALE_RESOURCE_ASSIGNMENT_V4_IP_LOCAL_ADDRESS).value.uint32 }
  let ctx := ctx_uninit
  let ctx := { ctx with process_id := incoming_metadata_values.processId }
  let ctx := { ctx with
    socket_address := memcpy ctx.socket_address addr.bytes sizeof_SOCKADDR_IN }
  let ctx := { ctx with operation := BIND_OPERATION_BIND }
  let ctx := { ctx with
    protocol := (incoming_fixed_values.incomingValue
      .FWPS_FIELD_ALE_RESOURCE_ASSIGNMENT_V4_IP_PROTOCOL).value.uint8 }
  let ctx := { ctx with
    app_id_start := (incoming_fixed_values.incomingValue
      .FWPS_FIELD_ALE_RESOURCE_ASSIGNMENT_V4_ALE_APP_ID).value.byteBlob.data % 2 ^ 64 }
  let ctx := { ctx with
    app_id_end := (ctx.app_id_start + (incoming_fixed_values.incomingValue
      .FWPS_FIELD_ALE_RESOURCE_ASSIGNMENT_V4_ALE_APP_ID).value.byteBlob.size) % 2 ^ 64 }
  ctx

/-- The C function `ebpf_hook_resource_allocation_classify`. The local `result` is
declared without an initialiser: `result_uninit` is what the stack held. It returns the
classify output on return, and the calls of `ebpf_core_invoke_hook` it made. -/
def ebpf_hook_resource_allocation_classify (ebpf_core_invoke_hook : invoke_hook_t)
    (incoming_fixed_values : FWPS_INCOMING_VALUES)
    (incoming_metadata_values : FWPS_INCOMING_METADATA_VALUES)
    (ctx_uninit : bind_md_t) (result_uninit : Nat) (classify_output : FWPS_CLASSIFY_OUT) :
    FWPS_CLASSIFY_OUT × List (ebpf_program_type_t × hook_context) :=
  let ctx := resource_allocation_ctx incoming_fixed_values incoming_metadata_values ctx_uninit
  let (code, result) :=
    ebpf_core_invoke_hook .EBPF_PROGRAM_TYPE_BIND (.bind ctx) result_uninit
  let classify_output :=
    if code = .EBPF_ERROR_SUCCESS then
      if result = BIND_PERMIT ∨ result = BIND_REDIRECT then
        { classify_output with actionType := .FWP_ACTION_PERMIT }
      else if result = BIND_DENY then
        { classify_output with actionType := .FWP_ACTION_BLOCK }
      else classify_output
    else classify_output
  (classify_output, [(.EBPF_PROGRAM_TYPE_BIND, .bind ctx)])

/-- The context record `ctx` that `ebpf_hook_resource_release_classify` builds, from
the fields of the release layer; `ctx_uninit` as for the allocation routine. -/
def resource_release_ctx (incoming_fixed_values : FWPS_INCOMING_VALUES)
    (incoming_metadata_values : FWPS_INCOMING_METADATA_VALUES) (ctx_uninit : bind_md_t) :
    bind_md_t :=
  let addr := SOCKADDR_IN.init AF_INET
  let addr := { addr with
    sin_port := (incoming_fixed_values.incomingValue
      .FWPS_FIELD_ALE_RESOURCE_RELEASE_V4_IP_LOCAL_PORT).value.uint16 }
  let addr := { addr with
    sin_addr := (incoming_fixed_values.incomingValue
      .FWPS_FIELD_ALE_RESOURCE_RELEASE_V4_IP_LOCAL_ADDRESS).value.uint32 }
  let ctx := ctx_uninit
  let ctx := { ctx with process_id := incoming_metadata_values.processId }
  let ctx := { ctx with
    socket_address := memcpy ctx.socket_address addr.bytes sizeof_SOCKADDR_IN }
  let ctx := { ctx with operation := BIND_OPERATION_UNBIND }
  let ctx := { ctx with
    protocol := (incoming_fixed_values.incomingValue
      .FWPS_FIELD_ALE_RESOURCE_RELEASE_V4_IP_PROTOCOL).value.uint8 }
  let ctx := { ctx with
    app_id_start := (incoming_fixed_values.incomingValue
      .FWPS_FIELD_ALE_RESOURCE_RELEASE_V4_ALE_APP_ID).value.byteBlob.data % 2 ^ 64 }
  let ctx := { ctx with
    app_id_end := (ctx.app_id_start + (incoming_fixed_values.incomingValue
      .FWPS_FIELD_ALE_RESOURCE_RELEASE_V4_ALE_APP_ID).value.byteBlob.size) % 2 ^ 64 }
  ctx

/-- The C function `ebpf_hook_resource_release_classify`: the code and the verdict of
the invocation are not read. -/
def ebpf_hook_resource_release_classify (ebpf_core_invoke_hook : invoke_hook_t)
    (incoming_fixed_values : FWPS_INCOMING_VALUES)
    (incoming_metadata_values : FWPS_INCOMING_METADATA_VALUES)
    (ctx_uninit : bind_md_t) (result_uninit : Nat) (classify_output : FWPS_CLASSIFY_OUT) :
    FWPS_CLASSIFY_OUT × List (ebpf_program_type_t × hook_context) :=
  let ctx := resource_release_ctx incoming_fixed_values incoming_metadata_values ctx_uninit
  let (_, _) :=
    ebpf_core_invoke_hook .EBPF_PROGRAM_TYPE_BIND (.bind ctx) result_uninit
  ({ classify_output with actionType := .FWP_ACTION_PERMIT },
    [(.EBPF_PROGRAM_TYPE_BIND, .bind ctx)])

/-! ## Concrete events -/

/-- A bind event: local port `8080`, local address `0x0100007F`, protocol `6`, and an
application-identity blob of `size` bytes at the address `65536`, the same in the fields
of both layers. -/
def sample_values (size : Nat) : FWPS_INCOMING_VALUES :=
  { incomingValue := fun _ =>
      { value := { uint8 := 6, uint16 := 8080, uint32 := 16777343,
                   byteBlob := { size := size, data := 65536 } } } }

/-- The metadata of the sample event: process `1234`. -/
def sample_metadata : FWPS_INCOMING_METADATA_VALUES := { processId := 1234 }

/-- A stack content for the local `ctx`: every byte `0xCC`. -/
def sample_uninit : bind_md_t :=
  { app_id_start := 14757395258967641292
    app_id_end := 14757395258967641292
    process_id := 14757395258967641292
    socket_address := List.replicate 16 204
    socket_address_length := 204
    operation := 204
    protocol := 204 }

/-- A program invocation that reports `code` and stores the verdict `r`. -/
def invoke_const (code : ebpf_error_code_t) (r : Nat) : invoke_hook_t :=
  fun _ _ _ => (code, r)

/-- A program invocation that reports `code` and leaves `result` as it was. -/
def invoke_silent (code : ebpf_error_code_t) : invoke_hook_t :=
  fun _ _ result => (code, result)

/-! ## Vocabulary of the statements -/

/-- The call `FwpsCalloutRegister` that registration makes for the descriptor `d`. -/
def register_call (device_object : Nat) (d : ebpf_wfp_callout_state_t) : Call :=
  .FwpsCalloutRegister device_object d.callout_guid d.classify_fn

/-- The call `FwpmCalloutAdd` that registration makes for the descriptor `d`. -/
def callout_add_call (h : HANDLE) (d : ebpf_wfp_callout_state_t) : Call :=
  .FwpmCalloutAdd h d.callout_guid d.layer_guid

/-- The call `FwpmFilterAdd` that registration makes for the descriptor `d`. -/
def filter_add_call (h : HANDLE) (d : ebpf_wfp_callout_state_t) : Call :=
  .FwpmFilterAdd h d.layer_guid d.filter_action_type d.callout_guid .EBPF_HOOK_SUBLAYER

/-- The table with the assigned id of entry `index` replaced. -/
def with_id (t : Fin RTL_COUNT_OF → ebpf_wfp_callout_state_t) (index : Fin RTL_COUNT_OF)
    (id : Nat) : Fin RTL_COUNT_OF → ebpf_wfp_callout_state_t :=
  Function.update t index { t index with assigned_callout_id := id }

/-- Every event of the list is a step of the registration sequence, and succeeded. -/
def StepsOk (new : List Event) : Prop :=
  ∀ ev ∈ new, ev.call.is_step = true ∧ NT_SUCCESS ev.resp.status = true

/-- The list is a run that failed with status `st`: steps that succeeded, then a step
that answered `st`, then unwinding calls only. -/
def FailedAt (st : NTSTATUS) (new : List Event) : Prop :=
  ∃ pre ev post, new = pre ++ ev :: post ∧ StepsOk pre ∧ ev.call.is_step = true ∧
    ev.resp.status = st ∧ ∀ x ∈ post, x.call.is_step = false

/-- The table differs from its static initialiser in the assigned ids only. -/
def callout_table_intact (s : State) : Prop :=
  ∀ i, { s._ebpf_wfp_callout_state i with assigned_callout_id := 0 } = initial_callout_state i

/-- The assigned ids of the three descriptors, in table order. -/
def assigned_ids (s : State) : List Nat :=
  (List.finRange RTL_COUNT_OF).map fun i => (s._ebpf_wfp_callout_state i).assigned_callout_id

/-- The ids the engine handed out in the log: the answers of the calls of
`FwpsCalloutRegister` that succeeded. -/
def registered_ids : List Event → List Nat
  | [] => []
  | ⟨.FwpsCalloutRegister _ _ _, r⟩ :: rest =>
    if NT_SUCCESS r.status then r.out :: registered_ids rest else registered_ids rest
  | _ :: rest => registered_ids rest

/-- The ids passed to `FwpsCalloutUnregisterById` in the log. -/
def unregistered_ids : List Event → List Nat
  | [] => []
  | ⟨.FwpsCalloutUnregisterById id, _⟩ :: rest => id :: unregistered_ids rest
  | _ :: rest => unregistered_ids rest

/-! ## Concrete engines -/

/-- A failure status of the platform (`0xC0000001` as a signed 32-bit value). -/
def STATUS_UNSUCCESSFUL : NTSTATUS := -1073741823

/-- An engine whose every call succeeds: it opens the session `77` and assigns to a
callout the id `101` plus the number of calls made before. -/
def engine_ok : Engine := fun log c =>
  match c with
  | .FwpmEngineOpen => ⟨0, 77⟩
  | .FwpsCalloutRegister _ _ _ => ⟨0, 101 + log.length⟩
  | _ => ⟨0, 0⟩

/-- The engine `engine_ok`, except that the calls selected by `bad` fail with `status`. -/
def engine_failing (bad : Call → Bool) (status : NTSTATUS) : Engine := fun log c =>
  if bad c then ⟨status, 0⟩ else engine_ok log c

/-- The filter-add of the second descriptor (resource allocation). -/
def second_filter_add : Call → Bool
  | .FwpmFilterAdd _ _ _ .EBPF_HOOK_ALE_RESOURCE_ALLOCATION_CALLOUT _ => true
  | _ => false

/-- The calls of `FwpsCalloutRegister`. -/
def any_callout_register : Call → Bool
  | .FwpsCalloutRegister _ _ _ => true
  | _ => false

/-- The state a full cycle leaves: registration with `engine_ok` from the initial state,
then teardown. -/
def state_after_cycle : State :=
  ebpf_hook_unregister_callouts engine_ok
    (ebpf_hook_register_callouts engine_ok 5 initial_state).2

/-! ## Vocabulary of the unwinding statements -/

/-- The call is `FwpmEngineOpen`. -/
def Call.is_open : Call → Bool
  | .FwpmEngineOpen => true
  | _ => false

/-- The call is `FwpmTransactionBegin`. -/
def Call.is_begin : Call → Bool
  | .FwpmTransactionBegin _ => true
  | _ => false

/-- The call is `FwpmTransactionAbort`. -/
def Call.is_abort : Call → Bool
  | .FwpmTransactionAbort _ => true
  | _ => false

/-- The call is `FwpmEngineClose`. -/
def Call.is_close : Call → Bool
  | .FwpmEngineClose _ => true
  | _ => false

/-- The call is `FwpsCalloutUnregisterById`. -/
def Call.is_unregister : Call → Bool
  | .FwpsCalloutUnregisterById _ => true
  | _ => false

/-- The call is a step made inside the transaction: the sub-layer add, a step of a
descriptor (callout register, callout add, filter add), or the commit. -/
def Call.is_in_transaction : Call → Bool
  | .FwpmSubLayerAdd _ _ => true
  | .FwpsCalloutRegister _ _ _ => true
  | .FwpmCalloutAdd _ _ _ => true
  | .FwpmFilterAdd _ _ _ _ _ => true
  | .FwpmTransactionCommit _ => true
  | _ => false

/-- Every event of the list is a step inside the transaction, and succeeded. -/
def BodyOk (new : List Event) : Prop :=
  ∀ ev ∈ new, ev.call.is_in_transaction = true ∧ NT_SUCCESS ev.resp.status = true

/-- The list is a run of steps inside the transaction that failed with status `st`:
steps that succeeded, then a step that answered `st`, then unregister calls only. -/
def BodyFailedAt (st : NTSTATUS) (new : List Event) : Prop :=
  ∃ pre ev post, new = pre ++ ev :: post ∧ BodyOk pre ∧ ev.call.is_in_transaction = true ∧
    ev.resp.status = st ∧ ∀ x ∈ post, x.call.is_unregister = true

/-! ## Lemmas -/

/-- The four outcomes of `ebpf_hook_register_wfp_callout`: the register step fails, the
callout-add step fails, the filter-add step fails, or all three succeed. -/
theorem wfp_cases (e : Engine) (index : Fin RTL_COUNT_OF) (dev : Nat) (s : State) :
    ∃ r1 r2 r3 ru : Resp,
      let d := s._ebpf_wfp_callout_state index
      let h := s._fwp_engine_handle
      (NT_SUCCESS r1.status = false ∧
        ebpf_hook_register_wfp_callout e index dev s =
          (r1.status, { s with log := s.log ++ [⟨register_call dev d, r1⟩] })) ∨
      (NT_SUCCESS r1.status = true ∧ NT_SUCCESS r2.status = false ∧
        ebpf_hook_register_wfp_callout e index dev s =
          (r2.status,
            { _fwp_engine_handle := h
              _ebpf_wfp_callout_state := with_id s._ebpf_wfp_callout_state index 0
              log := s.log ++ [⟨register_call dev d, r1⟩, ⟨callout_add_call h d, r2⟩,
                ⟨.FwpsCalloutUnregisterById r1.out, ru⟩] })) ∨
      (NT_SUCCESS r1.status = true ∧ NT_SUCCESS r2.status = true ∧
        NT_SUCCESS r3.status = false ∧
        ebpf_hook_register_wfp_callout e index dev s =
          (r3.status,
            { _fwp_engine_handle := h
              _ebpf_wfp_callout_state := with_id s._ebpf_wfp_callout_state index 0
              log := s.log ++ [⟨register_call dev d, r1⟩, ⟨callout_add_call h d, r2⟩,
                ⟨filter_add_call h d, r3⟩, ⟨.FwpsCalloutUnregisterById r1.out, ru⟩] })) ∨
      (NT_SUCCESS r1.status = true ∧ NT_SUCCESS r2.status = true ∧
        NT_SUCCESS r3.status = true ∧
        ebpf_hook_register_wfp_callout e index dev s =
          (r3.status,
            { _fwp_engine_handle := h
              _ebpf_wfp_callout_state := with_id s._ebpf_wfp_callout_state index r1.out
              log := s.log ++ [⟨register_call dev d, r1⟩, ⟨callout_add_call h d, r2⟩,
                ⟨filter_add_call h d, r3⟩] })) := by
  unfold ebpf_hook_register_wfp_callout FwpsCalloutRegister
  simp only [engine_call]
  generalize e s.log _ = r1
  by_cases h1 : NT_SUCCESS r1.status = true
  · simp only [h1, if_true, Bool.not_true, Bool.false_eq_true, if_false, set_assigned_callout_id,
      Function.update_same]
    generalize e _ _ = r2
    by_cases h2 : NT_SUCCESS r2.status = true
    · simp only [h2, if_true, Bool.not_true, Bool.false_eq_true, if_false]
      generalize e _ _ = r3
      by_cases h3 : NT_SUCCESS r3.status = true
      · refine ⟨r1, r2, r3, r3, Or.inr (Or.inr (Or.inr ⟨h1, h2, h3, ?_⟩))⟩
        simp [ebpf_hook_register_wfp_callout_exit, h3, register_call, callout_add_call,
          filter_add_call, with_id]
      · simp only [Bool.not_eq_true] at h3
        simp only [ebpf_hook_register_wfp_callout_exit, h3, engine_call]
        generalize e _ _ = ru
        refine ⟨r1, r2, r3, ru, Or.inr (Or.inr (Or.inl ⟨h1, h2, h3, ?_⟩))⟩
        simp [set_assigned_callout_id, register_call, callout_add_call,
          filter_add_call, with_id]
    · simp only [Bool.not_eq_true] at h2
      simp only [ebpf_hook_register_wfp_callout_exit, h2, engine_call]
      generalize e _ _ = ru
      refine ⟨r1, r2, r2, ru, Or.inr (Or.inl ⟨h1, h2, ?_⟩)⟩
      simp [set_assigned_callout_id, register_call, callout_add_call,
          filter_add_call, with_id]
  · simp only [Bool.not_eq_true] at h1
    refine ⟨r1, r1, r1, r1, Or.inl ⟨h1, ?_⟩⟩
    simp [ebpf_hook_register_wfp_callout_exit, h1, register_call]

/-- Registering one descriptor never changes the session handle. -/
theorem wfp_handle (e : Engine) (index : Fin RTL_COUNT_OF) (dev : Nat) (s : State) :
    (ebpf_hook_register_wfp_callout e index dev s).2._fwp_engine_handle =
      s._fwp_engine_handle := by
  obtain ⟨r1, r2, r3, ru, h⟩ := wfp_cases e index dev s
  rcases h with ⟨_, h⟩ | ⟨_, _, h⟩ | ⟨_, _, _, h⟩ | ⟨_, _, _, h⟩ <;> rw [h]

/-- The registration loop never changes the session handle. -/
theorem loop_handle (e : Engine) (dev : Nat) (l : List (Fin RTL_COUNT_OF)) :
    ∀ (st : NTSTATUS) (s : State),
      (ebpf_hook_register_callouts_loop e dev l st s).2.2._fwp_engine_handle =
        s._fwp_engine_handle := by
  induction l with
  | nil => intro st s; rfl
  | cons index rest ih =>
    intro st s
    simp only [ebpf_hook_register_callouts_loop]
    split_ifs with h
    · exact wfp_handle e index dev s
    · rw [ih]; exact wfp_handle e index dev s

/-- When the loop stops early, the status it carries is a failure. -/
theorem loop_stopped (e : Engine) (dev : Nat) (l : List (Fin RTL_COUNT_OF)) :
    ∀ (st : NTSTATUS) (s : State),
      (ebpf_hook_register_callouts_loop e dev l st s).1 = false →
        NT_SUCCESS (ebpf_hook_register_callouts_loop e dev l st s).2.1 = false := by
  induction l with
  | nil => intro st s h; simp [ebpf_hook_register_callouts_loop] at h
  | cons index rest ih =>
    intro st s
    simp only [ebpf_hook_register_callouts_loop]
    split_ifs with h
    · intro _; simpa using h
    · exact ih _ _

/-- The six outcomes of `ebpf_hook_register_callouts` when no session is open: failure
at open, at begin, at the sub-layer add, inside the loop, at commit, or success. -/
theorem register_cases (e : Engine) (dev : Nat) (s : State)
    (hnull : s._fwp_engine_handle = NULL) :
    ∃ ro rb rs rc ra rx : Resp,
      let s3 : State :=
        { _fwp_engine_handle := ro.out
          _ebpf_wfp_callout_state := s._ebpf_wfp_callout_state
          log := s.log ++ [⟨.FwpmEngineOpen, ro⟩, ⟨.FwpmTransactionBegin ro.out, rb⟩,
            ⟨.FwpmSubLayerAdd ro.out .EBPF_HOOK_SUBLAYER, rs⟩] }
      let L := ebpf_hook_register_callouts_loop e dev (List.finRange RTL_COUNT_OF) rs.status s3
      (NT_SUCCESS ro.status = false ∧
        ebpf_hook_register_callouts e dev s =
          (ro.status, { s with log := s.log ++ [⟨.FwpmEngineOpen, ro⟩] })) ∨
      (NT_SUCCESS ro.status = true ∧ NT_SUCCESS rb.status = false ∧
        ebpf_hook_register_callouts e dev s =
          (rb.status,
            { _fwp_engine_handle := NULL
              _ebpf_wfp_callout_state := s._ebpf_wfp_callout_state
              log := s.log ++ [⟨.FwpmEngineOpen, ro⟩, ⟨.FwpmTransactionBegin ro.out, rb⟩,
                ⟨.FwpmEngineClose ro.out, rx⟩] })) ∨
      (NT_SUCCESS ro.status = true ∧ NT_SUCCESS rb.status = true ∧
        NT_SUCCESS rs.status = false ∧
        ebpf_hook_register_callouts e dev s =
          (rs.status,
            { _fwp_engine_handle := NULL
              _ebpf_wfp_callout_state := s._ebpf_wfp_callout_state
              log := s3.log ++ [⟨.FwpmTransactionAbort ro.out, ra⟩,
                ⟨.FwpmEngineClose ro.out, rx⟩] })) ∨
      (NT_SUCCESS ro.status = true ∧ NT_SUCCESS rb.status = true ∧
        NT_SUCCESS rs.status = true ∧ L.1 = false ∧
        ebpf_hook_register_callouts e dev s =
          (L.2.1,
            { _fwp_engine_handle := NULL
              _ebpf_wfp_callout_state := L.2.2._ebpf_wfp_callout_state
              log := L.2.2.log ++ [⟨.FwpmTransactionAbort ro.out, ra⟩,
                ⟨.FwpmEngineClose ro.out, rx⟩] })) ∨
      (NT_SUCCESS ro.status = true ∧ NT_SUCCESS rb.status = true ∧
        NT_SUCCESS rs.status = true ∧ L.1 = true ∧ NT_SUCCESS rc.status = false ∧
        ebpf_hook_register_callouts e dev s =
          (rc.status,
            { _fwp_engine_handle := NULL
              _ebpf_wfp_callout_state := L.2.2._ebpf_wfp_callout_state
              log := L.2.2.log ++ [⟨.FwpmTransactionCommit ro.out, rc⟩,
                ⟨.FwpmTransactionAbort ro.out, ra⟩, ⟨.FwpmEngineClose ro.out, rx⟩] })) ∨
      (NT_SUCCESS ro.status = true ∧ NT_SUCCESS rb.status = true ∧
        NT_SUCCESS rs.status = true ∧ L.1 = true ∧ NT_SUCCESS rc.status = true ∧
        ebpf_hook_register_callouts e dev s =
          (rc.status,
            { _fwp_engine_handle := ro.out
              _ebpf_wfp_callout_state := L.2.2._ebpf_wfp_callout_state
              log := L.2.2.log ++ [⟨.FwpmTransactionCommit ro.out, rc⟩] })) := by
  unfold ebpf_hook_register_callouts FwpmEngineOpen
  simp only [hnull, ne_eq, not_true_eq_false, if_false, engine_call]
  generalize e s.log _ = ro
  by_cases h1 : NT_SUCCESS ro.status = true
  · simp only [h1, if_true, Bool.not_true, Bool.false_eq_true, if_false]
    generalize e _ _ = rb
    by_cases h2 : NT_SUCCESS rb.status = true
    · simp only [h2, if_true, Bool.not_true, Bool.false_eq_true, if_false]
      generalize e _ _ = rs
      by_cases h3 : NT_SUCCESS rs.status = true
      · simp only [h3, if_true, Bool.not_true, Bool.false_eq_true, if_false, List.append_assoc,
          List.singleton_append, List.cons_append, List.nil_append]
        rcases hL : ebpf_hook_register_callouts_loop e dev (List.finRange RTL_COUNT_OF)
          rs.status
          { _fwp_engine_handle := ro.out
            _ebpf_wfp_callout_state := s._ebpf_wfp_callout_state
            log := s.log ++ [⟨.FwpmEngineOpen, ro⟩, ⟨.FwpmTransactionBegin ro.out, rb⟩,
              ⟨.FwpmSubLayerAdd ro.out .EBPF_HOOK_SUBLAYER, rs⟩] } with ⟨completed, stL, sL⟩
        have hh := loop_handle e dev (List.finRange RTL_COUNT_OF) rs.status
          { _fwp_engine_handle := ro.out
            _ebpf_wfp_callout_state := s._ebpf_wfp_callout_state
            log := s.log ++ [⟨.FwpmEngineOpen, ro⟩, ⟨.FwpmTransactionBegin ro.out, rb⟩,
              ⟨.FwpmSubLayerAdd ro.out .EBPF_HOOK_SUBLAYER, rs⟩] }
        have hs := loop_stopped e dev (List.finRange RTL_COUNT_OF) rs.status
          { _fwp_engine_handle := ro.out
            _ebpf_wfp_callout_state := s._ebpf_wfp_callout_state
            log := s.log ++ [⟨.FwpmEngineOpen, ro⟩, ⟨.FwpmTransactionBegin ro.out, rb⟩,
              ⟨.FwpmSubLayerAdd ro.out .EBPF_HOOK_SUBLAYER, rs⟩] }
        rw [hL] at hh hs
        simp only at hh hs ⊢
        cases completed with
        | false =>
          have hs1 := hs rfl
          simp only [Bool.not_false, if_true, ebpf_hook_register_callouts_exit, hs1,
            engine_call, hh]
          generalize e _ _ = ra
          generalize e _ _ = rx
          refine ⟨ro, rb, rs, rs, ra, rx, Or.inr (Or.inr (Or.inr (Or.inl ⟨h1, h2, h3, ?_, ?_⟩)))⟩
          · rw [hL]
          · simp [hL, hs1, hh]
        | true =>
          simp only [Bool.not_true, Bool.false_eq_true, if_false, hh]
          generalize e _ _ = rc
          by_cases h4 : NT_SUCCESS rc.status = true
          · refine ⟨ro, rb, rs, rc, rc, rc,
              Or.inr (Or.inr (Or.inr (Or.inr (Or.inr ⟨h1, h2, h3, ?_, h4, ?_⟩))))⟩
            · rw [hL]
            · simp [ebpf_hook_register_callouts_exit, h4, hh, hL]
          · simp only [Bool.not_eq_true] at h4
            simp only [h4, Bool.not_false, if_true, ebpf_hook_register_callouts_exit,
              engine_call]
            generalize e _ _ = ra
            generalize e _ _ = rx
            refine ⟨ro, rb, rs, rc, ra, rx,
              Or.inr (Or.inr (Or.inr (Or.inr (Or.inl ⟨h1, h2, h3, ?_, h4, ?_⟩))))⟩
            · rw [hL]
            · simp [hL]
      · simp only [Bool.not_eq_true] at h3
        simp only [h3, Bool.not_false, if_true, ebpf_hook_register_callouts_exit, engine_call]
        generalize e _ _ = ra
        generalize e _ _ = rx
        refine ⟨ro, rb, rs, rs, ra, rx, Or.inr (Or.inr (Or.inl ⟨h1, h2, h3, ?_⟩))⟩
        simp
    · simp only [Bool.not_eq_true] at h2
      simp only [h2, Bool.not_false, if_true, ebpf_hook_register_callouts_exit, engine_call,
        Bool.false_eq_true, if_false]
      generalize e _ _ = rx
      refine ⟨ro, rb, rb, rb, rb, rx, Or.inr (Or.inl ⟨h1, h2, ?_⟩)⟩
      simp
  · simp only [Bool.not_eq_true] at h1
    refine ⟨ro, ro, ro, ro, ro, ro, Or.inl ⟨h1, ?_⟩⟩
    simp [ebpf_hook_register_callouts_exit, h1]

/-- Successful steps followed by successful steps. -/
theorem StepsOk.append {a b : List Event} (ha : StepsOk a) (hb : StepsOk b) :
    StepsOk (a ++ b) := by
  intro ev hev
  rcases List.mem_append.1 hev with h | h
  · exact ha ev h
  · exact hb ev h

/-- Successful steps in front of a failed run. -/
theorem FailedAt.prepend {st : NTSTATUS} {a b : List Event} (ha : StepsOk a)
    (hb : FailedAt st b) : FailedAt st (a ++ b) := by
  obtain ⟨pre, ev, post, rfl, hpre, hev, hst, hpost⟩ := hb
  exact ⟨a ++ pre, ev, post, by simp, ha.append hpre, hev, hst, hpost⟩

/-- Unwinding calls after a failed run. -/
theorem FailedAt.extend {st : NTSTATUS} {a c : List Event} (ha : FailedAt st a)
    (hc : ∀ x ∈ c, x.call.is_step = false) : FailedAt st (a ++ c) := by
  obtain ⟨pre, ev, post, rfl, hpre, hev, hst, hpost⟩ := ha
  refine ⟨pre, ev, post ++ c, by simp, hpre, hev, hst, ?_⟩
  intro x hx
  rcases List.mem_append.1 hx with h | h
  · exact hpost x h
  · exact hc x h

/-- The calls of one descriptor registration: all successful steps, or a failed run. -/
theorem wfp_run (e : Engine) (index : Fin RTL_COUNT_OF) (dev : Nat) (s : State) :
    ∃ new, (ebpf_hook_register_wfp_callout e index dev s).2.log = s.log ++ new ∧
      ((NT_SUCCESS (ebpf_hook_register_wfp_callout e index dev s).1 = true ∧ StepsOk new) ∨
       (NT_SUCCESS (ebpf_hook_register_wfp_callout e index dev s).1 = false ∧
         FailedAt (ebpf_hook_register_wfp_callout e index dev s).1 new)) := by
  obtain ⟨r1, r2, r3, ru, h⟩ := wfp_cases e index dev s
  rcases h with ⟨h1, h⟩ | ⟨h1, h2, h⟩ | ⟨h1, h2, h3, h⟩ | ⟨h1, h2, h3, h⟩ <;> rw [h]
  · exact ⟨_, rfl, Or.inr ⟨h1, [], _, [], rfl, by simp [StepsOk], rfl, rfl, by simp⟩⟩
  · refine ⟨_, rfl, Or.inr ⟨h2, [_], _, [_], rfl, ?_, rfl, rfl, ?_⟩⟩
    · simp [StepsOk, register_call, Call.is_step, h1]
    · simp [Call.is_step]
  · refine ⟨_, rfl, Or.inr ⟨h3, [_, _], _, [_], rfl, ?_, rfl, rfl, ?_⟩⟩
    · simp [StepsOk, register_call, callout_add_call, Call.is_step, h1, h2]
    · simp [Call.is_step]
  · refine ⟨_, rfl, Or.inl ⟨h3, ?_⟩⟩
    simp [StepsOk, register_call, callout_add_call, filter_add_call, Call.is_step, h1, h2, h3]

/-- The calls of the registration loop: all successful steps, or a failed run. -/
theorem loop_run (e : Engine) (dev : Nat) (l : List (Fin RTL_COUNT_OF)) :
    ∀ (st : NTSTATUS) (s : State),
      ∃ new, (ebpf_hook_register_callouts_loop e dev l st s).2.2.log = s.log ++ new ∧
        (((ebpf_hook_register_callouts_loop e dev l st s).1 = true ∧ StepsOk new) ∨
         ((ebpf_hook_register_callouts_loop e dev l st s).1 = false ∧
           FailedAt (ebpf_hook_register_callouts_loop e dev l st s).2.1 new)) := by
  induction l with
  | nil =>
    intro st s
    exact ⟨[], by simp [ebpf_hook_register_callouts_loop], Or.inl ⟨rfl, by simp [StepsOk]⟩⟩
  | cons index rest ih =>
    intro st s
    obtain ⟨new1, hlog1, h1⟩ := wfp_run e index dev s
    simp only [ebpf_hook_register_callouts_loop]
    rcases h1 with ⟨hok, hsteps⟩ | ⟨hbad, hfailed⟩
    · simp only [hok, Bool.not_true, Bool.false_eq_true, if_false]
      obtain ⟨new2, hlog2, h2⟩ := ih (ebpf_hook_register_wfp_callout e index dev s).1
        (ebpf_hook_register_wfp_callout e index dev s).2
      refine ⟨new1 ++ new2, by rw [hlog2, hlog1, List.append_assoc], ?_⟩
      rcases h2 with ⟨hc, hs2⟩ | ⟨hc, hf2⟩
      · exact Or.inl ⟨hc, hsteps.append hs2⟩
      · exact Or.inr ⟨hc, hf2.prepend hsteps⟩
    · simp only [hbad, Bool.not_false, if_true]
      exact ⟨new1, hlog1, Or.inr ⟨trivial, hfailed⟩⟩

/-- The calls of a whole registration: all successful steps, or a failed run. -/
theorem register_run (e : Engine) (dev : Nat) (s : State)
    (hnull : s._fwp_engine_handle = NULL) :
    ∃ new, (ebpf_hook_register_callouts e dev s).2.log = s.log ++ new ∧
      ((NT_SUCCESS (ebpf_hook_register_callouts e dev s).1 = true ∧ StepsOk new) ∨
       (NT_SUCCESS (ebpf_hook_register_callouts e dev s).1 = false ∧
         FailedAt (ebpf_hook_register_callouts e dev s).1 new)) := by
  obtain ⟨ro, rb, rs, rc, ra, rx, h⟩ := register_cases e dev s hnull
  simp only at h
  rcases h with ⟨h1, h⟩ | ⟨h1, h2, h⟩ | ⟨h1, h2, h3, h⟩ | ⟨h1, h2, h3, hL, h⟩ |
    ⟨h1, h2, h3, hL, h4, h⟩ | ⟨h1, h2, h3, hL, h4, h⟩
  · rw [h]
    exact ⟨_, rfl, Or.inr ⟨h1, [], _, [], rfl, by simp [StepsOk], rfl, rfl, by simp⟩⟩
  · rw [h]
    refine ⟨_, rfl, Or.inr ⟨h2, [_], _, [_], rfl, ?_, rfl, rfl, ?_⟩⟩
    · simp [StepsOk, Call.is_step, h1]
    · simp [Call.is_step]
  · rw [h]
    refine ⟨[⟨.FwpmEngineOpen, ro⟩, ⟨.FwpmTransactionBegin ro.out, rb⟩,
        ⟨.FwpmSubLayerAdd ro.out .EBPF_HOOK_SUBLAYER, rs⟩, ⟨.FwpmTransactionAbort ro.out, ra⟩,
        ⟨.FwpmEngineClose ro.out, rx⟩], by simp,
      Or.inr ⟨h3, [⟨.FwpmEngineOpen, ro⟩, ⟨.FwpmTransactionBegin ro.out, rb⟩],
        ⟨.FwpmSubLayerAdd ro.out .EBPF_HOOK_SUBLAYER, rs⟩, [⟨.FwpmTransactionAbort ro.out, ra⟩,
        ⟨.FwpmEngineClose ro.out, rx⟩], rfl, ?_, rfl, rfl, ?_⟩⟩
    · simp [StepsOk, Call.is_step, h1, h2]
    · simp [Call.is_step]
  all_goals
    obtain ⟨newL, hlogL, hrun⟩ := loop_run e dev (List.finRange RTL_COUNT_OF) rs.status
      { _fwp_engine_handle := ro.out
        _ebpf_wfp_callout_state := s._ebpf_wfp_callout_state
        log := s.log ++ [⟨.FwpmEngineOpen, ro⟩, ⟨.FwpmTransactionBegin ro.out, rb⟩,
          ⟨.FwpmSubLayerAdd ro.out .EBPF_HOOK_SUBLAYER, rs⟩] }
    have hpre : StepsOk [⟨.FwpmEngineOpen, ro⟩, ⟨.FwpmTransactionBegin ro.out, rb⟩,
        ⟨.FwpmSubLayerAdd ro.out .EBPF_HOOK_SUBLAYER, rs⟩] := by
      simp [StepsOk, Call.is_step, h1, h2, h3]
    simp only [hL, Bool.true_eq_false, Bool.false_eq_true, false_and, or_false, false_or,
      true_and] at hrun
    rw [h]
    simp only [hlogL, List.append_assoc]
  · refine ⟨_, rfl, Or.inr ⟨?_, ?_⟩⟩
    · have := loop_stopped e dev _ _ _ hL
      exact this
    · have := (hrun.prepend hpre).extend (c := [⟨.FwpmTransactionAbort ro.out, ra⟩,
        ⟨.FwpmEngineClose ro.out, rx⟩]) (by simp [Call.is_step])
      simpa using this
  · refine ⟨_, rfl, Or.inr ⟨h4, _ ++ newL, ⟨.FwpmTransactionCommit ro.out, rc⟩,
      [⟨.FwpmTransactionAbort ro.out, ra⟩, ⟨.FwpmEngineClose ro.out, rx⟩], by simp,
      hpre.append hrun, rfl, rfl, by simp [Call.is_step]⟩⟩
  · refine ⟨_, rfl, Or.inl ⟨h4, ?_⟩⟩
    have := (hpre.append hrun).append (b := [⟨.FwpmTransactionCommit ro.out, rc⟩])
      (by simp [StepsOk, Call.is_step, h4])
    simpa using this

/-- The indices the loops visit. -/
theorem finRange_count : List.finRange RTL_COUNT_OF = [0, 1, 2] := by decide

/-- The outcome of a descriptor registration that returned success. -/
theorem wfp_ok (e : Engine) (index : Fin RTL_COUNT_OF) (dev : Nat) (s : State)
    (hok : NT_SUCCESS (ebpf_hook_register_wfp_callout e index dev s).1 = true) :
    ∃ r1 r2 r3 : Resp,
      NT_SUCCESS r1.status = true ∧ NT_SUCCESS r2.status = true ∧
      NT_SUCCESS r3.status = true ∧
      ebpf_hook_register_wfp_callout e index dev s =
        (r3.status,
          { _fwp_engine_handle := s._fwp_engine_handle
            _ebpf_wfp_callout_state := with_id s._ebpf_wfp_callout_state index r1.out
            log := s.log ++ [⟨register_call dev (s._ebpf_wfp_callout_state index), r1⟩,
              ⟨callout_add_call s._fwp_engine_handle (s._ebpf_wfp_callout_state index), r2⟩,
              ⟨filter_add_call s._fwp_engine_handle (s._ebpf_wfp_callout_state index), r3⟩] }) := by
  obtain ⟨r1, r2, r3, ru, h⟩ := wfp_cases e index dev s
  rcases h with ⟨h1, h⟩ | ⟨h1, h2, h⟩ | ⟨h1, h2, h3, h⟩ | ⟨h1, h2, h3, h⟩
  · rw [h] at hok; simp [h1] at hok
  · rw [h] at hok; simp [h2] at hok
  · rw [h] at hok; simp [h3] at hok
  · exact ⟨r1, r2, r3, h1, h2, h3, h⟩

/-- A loop that ran to its end registered its first descriptor with success. -/
theorem loop_cons_completed (e : Engine) (dev : Nat) (index : Fin RTL_COUNT_OF)
    (rest : List (Fin RTL_COUNT_OF)) (st : NTSTATUS) (s : State)
    (hc : (ebpf_hook_register_callouts_loop e dev (index :: rest) st s).1 = true) :
    NT_SUCCESS (ebpf_hook_register_wfp_callout e index dev s).1 = true ∧
      ebpf_hook_register_callouts_loop e dev (index :: rest) st s =
        ebpf_hook_register_callouts_loop e dev rest
          (ebpf_hook_register_wfp_callout e index dev s).1
          (ebpf_hook_register_wfp_callout e index dev s).2 := by
  simp only [ebpf_hook_register_callouts_loop] at hc ⊢
  by_cases h : NT_SUCCESS (ebpf_hook_register_wfp_callout e index dev s).1 = true
  · simp [h]
  · simp [h] at hc

/-- Replacing an id leaves the other entries alone. -/
theorem with_id_apply_ne (t : Fin RTL_COUNT_OF → ebpf_wfp_callout_state_t)
    (i j : Fin RTL_COUNT_OF) (id : Nat) (h : j ≠ i) : with_id t i id j = t j := by
  simp [with_id, h]

/-- The outcome of a registration loop that ran to its end. -/
theorem loop_completed (e : Engine) (dev : Nat) (st : NTSTATUS) (s : State)
    (hc : (ebpf_hook_register_callouts_loop e dev (List.finRange RTL_COUNT_OF) st s).1 = true) :
    ∃ a1 a2 a3 b1 b2 b3 c1 c2 c3 : Resp,
      ebpf_hook_register_callouts_loop e dev (List.finRange RTL_COUNT_OF) st s =
        (true, c3.status,
          { _fwp_engine_handle := s._fwp_engine_handle
            _ebpf_wfp_callout_state :=
              with_id (with_id (with_id s._ebpf_wfp_callout_state 0 a1.out) 1 b1.out) 2 c1.out
            log := s.log ++
              [⟨register_call dev (s._ebpf_wfp_callout_state 0), a1⟩,
               ⟨callout_add_call s._fwp_engine_handle (s._ebpf_wfp_callout_state 0), a2⟩,
               ⟨filter_add_call s._fwp_engine_handle (s._ebpf_wfp_callout_state 0), a3⟩,
               ⟨register_call dev (s._ebpf_wfp_callout_state 1), b1⟩,
               ⟨callout_add_call s._fwp_engine_handle (s._ebpf_wfp_callout_state 1), b2⟩,
               ⟨filter_add_call s._fwp_engine_handle (s._ebpf_wfp_callout_state 1), b3⟩,
               ⟨register_call dev (s._ebpf_wfp_callout_state 2), c1⟩,
               ⟨callout_add_call s._fwp_engine_handle (s._ebpf_wfp_callout_state 2), c2⟩,
               ⟨filter_add_call s._fwp_engine_handle (s._ebpf_wfp_callout_state 2), c3⟩] }) := by
  rw [finRange_count] at hc ⊢
  obtain ⟨hk0, hl0⟩ := loop_cons_completed e dev 0 [1, 2] st s hc
  obtain ⟨a1, a2, a3, -, -, -, ha⟩ := wfp_ok e 0 dev s hk0
  rw [hl0] at hc ⊢
  rw [ha] at hc ⊢
  obtain ⟨hk1, hl1⟩ := loop_cons_completed e dev 1 [2] _ _ hc
  obtain ⟨b1, b2, b3, -, -, -, hb⟩ := wfp_ok e 1 dev _ hk1
  rw [hl1] at hc ⊢
  rw [hb] at hc ⊢
  obtain ⟨hk2, hl2⟩ := loop_cons_completed e dev 2 [] _ _ hc
  obtain ⟨c1, c2, c3, -, -, -, hcc⟩ := wfp_ok e 2 dev _ hk2
  rw [hl2, hcc]
  refine ⟨a1, a2, a3, b1, b2, b3, c1, c2, c3, ?_⟩
  simp [ebpf_hook_register_callouts_loop, with_id_apply_ne]

/-! ## Registration: the claims -/

/-- Claim C1, evaluated where the code departs from it. From the initial state, with an
engine whose only failing step is the filter-add of the second descriptor, registration
returns that failure and the first descriptor keeps the id `104` the engine assigned to
it: the assigned ids on return are `[104, 0, 0]`, not all `0`. -/
theorem register_failure_keeps_earlier_id :
    (ebpf_hook_register_callouts (engine_failing second_filter_add STATUS_UNSUCCESSFUL) 5
        initial_state).1 = STATUS_UNSUCCESSFUL ∧
      NT_SUCCESS (ebpf_hook_register_callouts
        (engine_failing second_filter_add STATUS_UNSUCCESSFUL) 5 initial_state).1 = false ∧
      assigned_ids (ebpf_hook_register_callouts
        (engine_failing second_filter_add STATUS_UNSUCCESSFUL) 5 initial_state).2 =
        [104, 0, 0] := by
  decide

/-- Claim C2: when `ebpf_hook_register_callouts` is called with no session open and
returns a failure status, whichever step of whichever engine failed, the stored session
handle `_fwp_engine_handle` is `NULL` on return. -/
theorem register_failure_clears_handle (e : Engine) (device_object : Nat) (s : State)
    (hclosed : s._fwp_engine_handle = NULL)
    (hfail : NT_SUCCESS (ebpf_hook_register_callouts e device_object s).1 = false) :
    (ebpf_hook_register_callouts e device_object s).2._fwp_engine_handle = NULL := by
  obtain ⟨ro, rb, rs, rc, ra, rx, h⟩ := register_cases e device_object s hclosed
  simp only at h
  rcases h with ⟨_, h⟩ | ⟨_, _, h⟩ | ⟨_, _, _, h⟩ | ⟨_, _, _, _, h⟩ |
    ⟨_, _, _, _, _, h⟩ | ⟨_, _, _, _, h4, h⟩
  · rw [h]; exact hclosed
  · rw [h]
  · rw [h]
  · rw [h]
  · rw [h]
  · rw [h] at hfail
    simp [h4] at hfail

/-- Witness of C2: the second filter-add fails, registration fails, no handle remains. -/
theorem register_failure_clears_handle_witness :
    initial_state._fwp_engine_handle = NULL ∧
      NT_SUCCESS (ebpf_hook_register_callouts
        (engine_failing second_filter_add STATUS_UNSUCCESSFUL) 5 initial_state).1 = false ∧
      (ebpf_hook_register_callouts (engine_failing second_filter_add STATUS_UNSUCCESSFUL) 5
        initial_state).2._fwp_engine_handle = NULL :=
  ⟨rfl, by decide,
    register_failure_clears_handle (engine_failing second_filter_add STATUS_UNSUCCESSFUL) 5
      initial_state rfl (by decide)⟩

/-- Claim C3, evaluated where the code departs from it. In the same failed run as for C1
the engine registered two callouts, with ids `104` and `107`, and only `107` (the callout
of the failing descriptor) was passed to `FwpsCalloutUnregisterById`: callout `104` is
still registered when the call returns failure. -/
theorem register_failure_leaves_callout_registered :
    NT_SUCCESS (ebpf_hook_register_callouts
        (engine_failing second_filter_add STATUS_UNSUCCESSFUL) 5 initial_state).1 = false ∧
      registered_ids (ebpf_hook_register_callouts
        (engine_failing second_filter_add STATUS_UNSUCCESSFUL) 5 initial_state).2.log =
        [104, 107] ∧
      unregistered_ids (ebpf_hook_register_callouts
        (engine_failing second_filter_add STATUS_UNSUCCESSFUL) 5 initial_state).2.log =
        [107] := by
  decide

/-- Claim C4: for a call of `ebpf_hook_register_callouts` with no session open, the
returned status is a success status exactly when every step made (open, begin, sub-layer
add, callout register, callout add, filter add, commit) succeeded; and when the returned
status is a failure, the calls made are steps that succeeded, then a step that answered
exactly the returned status, then unwinding calls only (no further step). -/
theorem register_status (e : Engine) (device_object : Nat) (s : State)
    (hclosed : s._fwp_engine_handle = NULL) :
    ∃ new, (ebpf_hook_register_callouts e device_object s).2.log = s.log ++ new ∧
      (NT_SUCCESS (ebpf_hook_register_callouts e device_object s).1 = true ↔
        ∀ ev ∈ new, ev.call.is_step = true → NT_SUCCESS ev.resp.status = true) ∧
      (NT_SUCCESS (ebpf_hook_register_callouts e device_object s).1 = false →
        ∃ pre ev post, new = pre ++ ev :: post ∧
          (∀ x ∈ pre, x.call.is_step = true ∧ NT_SUCCESS x.resp.status = true) ∧
          ev.call.is_step = true ∧
          ev.resp.status = (ebpf_hook_register_callouts e device_object s).1 ∧
          ∀ x ∈ post, x.call.is_step = false) := by
  obtain ⟨new, hlog, hrun⟩ := register_run e device_object s hclosed
  refine ⟨new, hlog, ?_, ?_⟩
  · rcases hrun with ⟨hok, hsteps⟩ | ⟨hbad, pre, ev, post, rfl, _, hev, hst, _⟩
    · exact ⟨fun _ ev hev _ => (hsteps ev hev).2, fun _ => hok⟩
    · constructor
      · intro hok; rw [hok] at hbad; cases hbad
      · intro hall
        have := hall ev (by simp) hev
        rw [hst, hbad] at this
        cases this
  · intro hbad
    rcases hrun with ⟨hok, _⟩ | ⟨_, hfailed⟩
    · rw [hok] at hbad; cases hbad
    · exact hfailed

/-- Witness of C4: the initial state has no session open. -/
theorem register_status_witness :
    initial_state._fwp_engine_handle = NULL ∧
      ∃ new, (ebpf_hook_register_callouts
          (engine_failing second_filter_add STATUS_UNSUCCESSFUL) 5 initial_state).2.log =
          initial_state.log ++ new ∧
        (NT_SUCCESS (ebpf_hook_register_callouts
          (engine_failing second_filter_add STATUS_UNSUCCESSFUL) 5 initial_state).1 = true ↔
          ∀ ev ∈ new, ev.call.is_step = true → NT_SUCCESS ev.resp.status = true) ∧
        (NT_SUCCESS (ebpf_hook_register_callouts
          (engine_failing second_filter_add STATUS_UNSUCCESSFUL) 5 initial_state).1 = false →
          ∃ pre ev post, new = pre ++ ev :: post ∧
            (∀ x ∈ pre, x.call.is_step = true ∧ NT_SUCCESS x.resp.status = true) ∧
            ev.call.is_step = true ∧
            ev.resp.status = (ebpf_hook_register_callouts
              (engine_failing second_filter_add STATUS_UNSUCCESSFUL) 5 initial_state).1 ∧
            ∀ x ∈ post, x.call.is_step = false) :=
  ⟨rfl, register_status (engine_failing second_filter_add STATUS_UNSUCCESSFUL) 5
    initial_state rfl⟩

/-- Claim C5: if a session handle exists on entry, `ebpf_hook_register_callouts` returns
`STATUS_SUCCESS` and leaves the whole state as it was: the handle, every descriptor, and
the log of engine calls (no call is made). Hence, when registration is called with no
session open, every step the engine is asked succeeds and the handle it opened is not
null, the first call returns success and a second call in succession returns
`STATUS_SUCCESS` and adds no engine call to those of the first. -/
theorem register_idempotent (e : Engine) (device_object : Nat) (s : State) :
    (s._fwp_engine_handle ≠ NULL →
      ebpf_hook_register_callouts e device_object s = (STATUS_SUCCESS, s)) ∧
    (s._fwp_engine_handle = NULL →
      (∀ ev ∈ (ebpf_hook_register_callouts e device_object s).2.log.drop s.log.length,
        ev.call.is_step = true → NT_SUCCESS ev.resp.status = true) →
      (ebpf_hook_register_callouts e device_object s).2._fwp_engine_handle ≠ NULL →
      NT_SUCCESS (ebpf_hook_register_callouts e device_object s).1 = true ∧
        ebpf_hook_register_callouts e device_object
            (ebpf_hook_register_callouts e device_object s).2 =
          (STATUS_SUCCESS, (ebpf_hook_register_callouts e device_object s).2)) := by
  have key : ∀ s' : State, s'._fwp_engine_handle ≠ NULL →
      ebpf_hook_register_callouts e device_object s' = (STATUS_SUCCESS, s') := by
    intro s' h
    simp [ebpf_hook_register_callouts, ebpf_hook_register_callouts_exit, h, STATUS_SUCCESS,
      NT_SUCCESS]
  refine ⟨key s, fun hclosed hsteps hopen => ⟨?_, key _ hopen⟩⟩
  obtain ⟨new, hlog, hrun⟩ := register_run e device_object s hclosed
  rcases hrun with ⟨hok, _⟩ | ⟨hbad, pre, ev, post, rfl, _, hev, hst, _⟩
  · exact hok
  · have := hsteps ev (by simp [hlog]) hev
    rw [hst, hbad] at this
    cases this

/-- Witness of C5: with `engine_ok`, a call on the registered state changes nothing, and
two calls in succession from the initial state both succeed. -/
theorem register_idempotent_witness :
    ebpf_hook_register_callouts engine_ok 5
        (ebpf_hook_register_callouts engine_ok 5 initial_state).2 =
      (STATUS_SUCCESS, (ebpf_hook_register_callouts engine_ok 5 initial_state).2) ∧
    (NT_SUCCESS (ebpf_hook_register_callouts engine_ok 5 initial_state).1 = true ∧
      ebpf_hook_register_callouts engine_ok 5
          (ebpf_hook_register_callouts engine_ok 5 initial_state).2 =
        (STATUS_SUCCESS, (ebpf_hook_register_callouts engine_ok 5 initial_state).2)) :=
  ⟨(register_idempotent engine_ok 5
      (ebpf_hook_register_callouts engine_ok 5 initial_state).2).1 (by decide),
    (register_idempotent engine_ok 5 initial_state).2 rfl (by decide) (by decide)⟩

/-- Claim C6: for a call of `ebpf_hook_register_callouts` with no session open and the
table as in the source, if every step the engine is asked succeeds and every id it
assigns is non-zero, then the call returns success; the engine calls made are exactly
open, begin, sub-layer add, then register / callout add / filter add for the L2
descriptor, for the resource allocation descriptor and for the resource release
descriptor in this order, then commit; the session handle is the one the engine opened;
and the assigned id of each descriptor is the id the engine answered to the register
call made with its callout GUID, so the three ids are non-zero. -/
theorem register_success (e : Engine) (device_object : Nat) (s : State)
    (hclosed : s._fwp_engine_handle = NULL) (htable : callout_table_intact s)
    (hsteps : ∀ ev ∈ (ebpf_hook_register_callouts e device_object s).2.log.drop s.log.length,
      ev.call.is_step = true → NT_SUCCESS ev.resp.status = true)
    (hids : ∀ ev ∈ (ebpf_hook_register_callouts e device_object s).2.log.drop s.log.length,
      any_callout_register ev.call = true → ev.resp.out ≠ 0) :
    NT_SUCCESS (ebpf_hook_register_callouts e device_object s).1 = true ∧
    ∃ ro rb rs a1 a2 a3 b1 b2 b3 c1 c2 c3 rc : Resp,
      (ebpf_hook_register_callouts e device_object s).2.log = s.log ++
        [⟨.FwpmEngineOpen, ro⟩,
         ⟨.FwpmTransactionBegin ro.out, rb⟩,
         ⟨.FwpmSubLayerAdd ro.out .EBPF_HOOK_SUBLAYER, rs⟩,
         ⟨.FwpsCalloutRegister device_object .EBPF_HOOK_L2_CALLOUT
            .ebpf_hook_layer_2_classify, a1⟩,
         ⟨.FwpmCalloutAdd ro.out .EBPF_HOOK_L2_CALLOUT
            .FWPM_LAYER_INBOUND_MAC_FRAME_ETHERNET, a2⟩,
         ⟨.FwpmFilterAdd ro.out .FWPM_LAYER_INBOUND_MAC_FRAME_ETHERNET
            .FWP_ACTION_CALLOUT_TERMINATING .EBPF_HOOK_L2_CALLOUT .EBPF_HOOK_SUBLAYER, a3⟩,
         ⟨.FwpsCalloutRegister device_object .EBPF_HOOK_ALE_RESOURCE_ALLOCATION_CALLOUT
            .ebpf_hook_resource_allocation_classify, b1⟩,
         ⟨.FwpmCalloutAdd ro.out .EBPF_HOOK_ALE_RESOURCE_ALLOCATION_CALLOUT
            .FWPM_LAYER_ALE_RESOURCE_ASSIGNMENT_V4, b2⟩,
         ⟨.FwpmFilterAdd ro.out .FWPM_LAYER_ALE_RESOURCE_ASSIGNMENT_V4
            .FWP_ACTION_CALLOUT_TERMINATING .EBPF_HOOK_ALE_RESOURCE_ALLOCATION_CALLOUT
            .EBPF_HOOK_SUBLAYER, b3⟩,
         ⟨.FwpsCalloutRegister device_object .EBPF_HOOK_ALE_RESOURCE_RELEASE_CALLOUT
            .ebpf_hook_resource_release_classify, c1⟩,
         ⟨.FwpmCalloutAdd ro.out .EBPF_HOOK_ALE_RESOURCE_RELEASE_CALLOUT
            .FWPM_LAYER_ALE_RESOURCE_RELEASE_V4, c2⟩,
         ⟨.FwpmFilterAdd ro.out .FWPM_LAYER_ALE_RESOURCE_RELEASE_V4
            .FWP_ACTION_CALLOUT_TERMINATING .EBPF_HOOK_ALE_RESOURCE_RELEASE_CALLOUT
            .EBPF_HOOK_SUBLAYER, c3⟩,
         ⟨.FwpmTransactionCommit ro.out, rc⟩] ∧
      (ebpf_hook_register_callouts e device_object s).1 = rc.status ∧
      (ebpf_hook_register_callouts e device_object s).2._fwp_engine_handle = ro.out ∧
      assigned_ids (ebpf_hook_register_callouts e device_object s).2 =
        [a1.out, b1.out, c1.out] ∧
      a1.out ≠ 0 ∧ b1.out ≠ 0 ∧ c1.out ≠ 0 := by
  have hsucc : NT_SUCCESS (ebpf_hook_register_callouts e device_object s).1 = true := by
    obtain ⟨new, hlog, hrun⟩ := register_run e device_object s hclosed
    rcases hrun with ⟨hok, _⟩ | ⟨hbad, pre, ev, post, rfl, _, hev, hst, _⟩
    · exact hok
    · have := hsteps ev (by simp [hlog]) hev
      rw [hst, hbad] at this
      cases this
  refine ⟨hsucc, ?_⟩
  have g0 := congrArg ebpf_wfp_callout_state_t.callout_guid (htable 0)
  have g1 := congrArg ebpf_wfp_callout_state_t.callout_guid (htable 1)
  have g2 := congrArg ebpf_wfp_callout_state_t.callout_guid (htable 2)
  have l0 := congrArg ebpf_wfp_callout_state_t.layer_guid (htable 0)
  have l1 := congrArg ebpf_wfp_callout_state_t.layer_guid (htable 1)
  have l2 := congrArg ebpf_wfp_callout_state_t.layer_guid (htable 2)
  have f0 := congrArg ebpf_wfp_callout_state_t.classify_fn (htable 0)
  have f1 := congrArg ebpf_wfp_callout_state_t.classify_fn (htable 1)
  have f2 := congrArg ebpf_wfp_callout_state_t.classify_fn (htable 2)
  have t0 := congrArg ebpf_wfp_callout_state_t.filter_action_type (htable 0)
  have t1 := congrArg ebpf_wfp_callout_state_t.filter_action_type (htable 1)
  have t2 := congrArg ebpf_wfp_callout_state_t.filter_action_type (htable 2)
  simp only [initial_callout_state] at g0 g1 g2 l0 l1 l2 f0 f1 f2 t0 t1 t2
  obtain ⟨ro, rb, rs, rc, ra, rx, h⟩ := register_cases e device_object s hclosed
  simp only at h
  rcases h with ⟨h1, h⟩ | ⟨_, h2, h⟩ | ⟨_, _, h3, h⟩ | ⟨_, _, _, hL, h⟩ |
    ⟨_, _, _, _, h4, h⟩ | ⟨_, _, _, hL, _, h⟩
  · rw [h] at hsucc; simp [h1] at hsucc
  · rw [h] at hsucc; simp [h2] at hsucc
  · rw [h] at hsucc; simp [h3] at hsucc
  · rw [h] at hsucc
    have := loop_stopped e device_object _ _ _ hL
    simp [this] at hsucc
  · rw [h] at hsucc; simp [h4] at hsucc
  · obtain ⟨a1, a2, a3, b1, b2, b3, c1, c2, c3, hloop⟩ :=
      loop_completed e device_object _ _ hL
    rw [hloop] at h
    simp only [register_call, callout_add_call, filter_add_call, g0, g1, g2, l0, l1, l2,
      f0, f1, f2, t0, t1, t2, List.append_assoc, List.cons_append, List.nil_append] at h
    rw [h] at hids
    simp only [List.drop_left, List.mem_cons, List.mem_singleton, forall_eq_or_imp,
      forall_eq, any_callout_register] at hids
    refine ⟨ro, rb, rs, a1, a2, a3, b1, b2, b3, c1, c2, c3, rc, ?_, ?_, ?_, ?_, ?_, ?_, ?_⟩
    · rw [h]
    · rw [h]
    · rw [h]
    · rw [h]
      simp [assigned_ids, finRange_count, with_id]
    · simp_all
    · simp_all
    · simp_all

/-- Witness of C6: `engine_ok` on the initial state meets every hypothesis, and the
three ids it assigns are `104`, `107` and `110`. -/
theorem register_success_witness :
    initial_state._fwp_engine_handle = NULL ∧ callout_table_intact initial_state ∧
      NT_SUCCESS (ebpf_hook_register_callouts engine_ok 5 initial_state).1 = true ∧
      assigned_ids (ebpf_hook_register_callouts engine_ok 5 initial_state).2 =
        [104, 107, 110] :=
  ⟨rfl, by unfold callout_table_intact; decide,
    (register_success engine_ok 5 initial_state rfl (by unfold callout_table_intact; decide)
      (by decide) (by decide)).1,
    by decide⟩

/-! ## Teardown: the claims -/

/-- Claim C7, evaluated where the code departs from it. After a registration that
succeeded (engine `engine_ok`, initial state), `ebpf_hook_unregister_callouts` leaves no
session handle, but the assigned ids are still `[104, 107, 110]`: teardown passes each id
to `FwpsCalloutUnregisterById` and does not reset it to `0`. -/
theorem unregister_keeps_assigned_ids :
    NT_SUCCESS (ebpf_hook_register_callouts engine_ok 5 initial_state).1 = true ∧
      (ebpf_hook_unregister_callouts engine_ok
        (ebpf_hook_register_callouts engine_ok 5 initial_state).2)._fwp_engine_handle = NULL ∧
      assigned_ids (ebpf_hook_unregister_callouts engine_ok
        (ebpf_hook_register_callouts engine_ok 5 initial_state).2) = [104, 107, 110] ∧
      unregistered_ids (ebpf_hook_unregister_callouts engine_ok
        (ebpf_hook_register_callouts engine_ok 5 initial_state).2).log = [104, 107, 110] := by
  decide

/-- Claim C8: when no session is open, `ebpf_hook_unregister_callouts` returns the state
it was given: the handle, every descriptor and the log of engine calls are unchanged, so
no close-session and no unregister-callout call is made. -/
theorem unregister_closed_noop (e : Engine) (s : State)
    (hclosed : s._fwp_engine_handle = NULL) :
    ebpf_hook_unregister_callouts e s = s := by
  simp [ebpf_hook_unregister_callouts, hclosed]

/-- Witness of C8: teardown on the initial state, where nothing was ever registered. -/
theorem unregister_closed_noop_witness :
    initial_state._fwp_engine_handle = NULL ∧
      ebpf_hook_unregister_callouts engine_ok initial_state = initial_state :=
  ⟨rfl, unregister_closed_noop engine_ok initial_state rfl⟩

/-! ## Registration of one descriptor: the claim -/

/-- Claim C9 as stated fails: in the state a full cycle leaves, the first descriptor
still holds the id `104`; when `FwpsCalloutRegister` then fails for it,
`ebpf_hook_register_wfp_callout` returns the failure and the assigned id is `104` on
return, not `0`, and no unregister call is made. -/
theorem wfp_register_failure_keeps_id :
    (state_after_cycle._ebpf_wfp_callout_state 0).assigned_callout_id = 104 ∧
      NT_SUCCESS (ebpf_hook_register_wfp_callout
        (engine_failing any_callout_register STATUS_UNSUCCESSFUL) 0 5 state_after_cycle).1 =
        false ∧
      ((ebpf_hook_register_wfp_callout
        (engine_failing any_callout_register STATUS_UNSUCCESSFUL) 0 5
          state_after_cycle).2._ebpf_wfp_callout_state 0).assigned_callout_id = 104 ∧
      unregistered_ids ((ebpf_hook_register_wfp_callout
        (engine_failing any_callout_register STATUS_UNSUCCESSFUL) 0 5
          state_after_cycle).2.log.drop state_after_cycle.log.length) = [] := by
  decide

/-- Claim C9 as amended: when `ebpf_hook_register_wfp_callout` returns a failure status,
one of three cases holds. Either the register-callout step failed: the status returned
is its status, it is the only engine call made, and the state is otherwise as on entry
(the assigned id keeps the value it had). Or the register-callout step succeeded with the
id `r1.out` and the callout-add step failed, or both succeeded and the filter-add step
failed: the status returned is that of the failing step, the assigned id of the
descriptor is `0` on return, and exactly one unregister call is made, last, with the id
`r1.out` just assigned. -/
theorem wfp_failure (e : Engine) (index : Fin RTL_COUNT_OF) (device_object : Nat) (s : State)
    (hfail : NT_SUCCESS (ebpf_hook_register_wfp_callout e index device_object s).1 = false) :
    ∃ r1 r2 r3 ru : Resp,
      (NT_SUCCESS r1.status = false ∧
        ebpf_hook_register_wfp_callout e index device_object s =
          (r1.status,
            { s with log := s.log ++
                [⟨register_call device_object (s._ebpf_wfp_callout_state index), r1⟩] })) ∨
      (NT_SUCCESS r1.status = true ∧ NT_SUCCESS r2.status = false ∧
        ebpf_hook_register_wfp_callout e index device_object s =
          (r2.status,
            { _fwp_engine_handle := s._fwp_engine_handle
              _ebpf_wfp_callout_state := with_id s._ebpf_wfp_callout_state index 0
              log := s.log ++
                [⟨register_call device_object (s._ebpf_wfp_callout_state index), r1⟩,
                 ⟨callout_add_call s._fwp_engine_handle (s._ebpf_wfp_callout_state index), r2⟩,
                 ⟨.FwpsCalloutUnregisterById r1.out, ru⟩] })) ∨
      (NT_SUCCESS r1.status = true ∧ NT_SUCCESS r2.status = true ∧
        NT_SUCCESS r3.status = false ∧
        ebpf_hook_register_wfp_callout e index device_object s =
          (r3.status,
            { _fwp_engine_handle := s._fwp_engine_handle
              _ebpf_wfp_callout_state := with_id s._ebpf_wfp_callout_state index 0
              log := s.log ++
                [⟨register_call device_object (s._ebpf_wfp_callout_state index), r1⟩,
                 ⟨callout_add_call s._fwp_engine_handle (s._ebpf_wfp_callout_state index), r2⟩,
                 ⟨filter_add_call s._fwp_engine_handle (s._ebpf_wfp_callout_state index), r3⟩,
                 ⟨.FwpsCalloutUnregisterById r1.out, ru⟩] })) := by
  obtain ⟨r1, r2, r3, ru, h⟩ := wfp_cases e index device_object s
  rcases h with ⟨h1, h⟩ | ⟨h1, h2, h⟩ | ⟨h1, h2, h3, h⟩ | ⟨h1, h2, h3, h⟩
  · exact ⟨r1, r2, r3, ru, Or.inl ⟨h1, h⟩⟩
  · exact ⟨r1, r2, r3, ru, Or.inr (Or.inl ⟨h1, h2, h⟩)⟩
  · exact ⟨r1, r2, r3, ru, Or.inr (Or.inr ⟨h1, h2, h3, h⟩)⟩
  · rw [h] at hfail
    simp [h3] at hfail

/-- Witness of C9 as amended: the filter-add of the second descriptor fails. -/
theorem wfp_failure_witness :
    NT_SUCCESS (ebpf_hook_register_wfp_callout
        (engine_failing second_filter_add STATUS_UNSUCCESSFUL) 1 5 initial_state).1 = false ∧
    ∃ r1 r2 r3 ru : Resp,
      (NT_SUCCESS r1.status = false ∧
        ebpf_hook_register_wfp_callout
            (engine_failing second_filter_add STATUS_UNSUCCESSFUL) 1 5 initial_state =
          (r1.status,
            { initial_state with log := initial_state.log ++
                [⟨register_call 5 (initial_state._ebpf_wfp_callout_state 1), r1⟩] })) ∨
      (NT_SUCCESS r1.status = true ∧ NT_SUCCESS r2.status = false ∧
        ebpf_hook_register_wfp_callout
            (engine_failing second_filter_add STATUS_UNSUCCESSFUL) 1 5 initial_state =
          (r2.status,
            { _fwp_engine_handle := initial_state._fwp_engine_handle
              _ebpf_wfp_callout_state := with_id initial_state._ebpf_wfp_callout_state 1 0
              log := initial_state.log ++
                [⟨register_call 5 (initial_state._ebpf_wfp_callout_state 1), r1⟩,
                 ⟨callout_add_call initial_state._fwp_engine_handle
                    (initial_state._ebpf_wfp_callout_state 1), r2⟩,
                 ⟨.FwpsCalloutUnregisterById r1.out, ru⟩] })) ∨
      (NT_SUCCESS r1.status = true ∧ NT_SUCCESS r2.status = true ∧
        NT_SUCCESS r3.status = false ∧
        ebpf_hook_register_wfp_callout
            (engine_failing second_filter_add STATUS_UNSUCCESSFUL) 1 5 initial_state =
          (r3.status,
            { _fwp_engine_handle := initial_state._fwp_engine_handle
              _ebpf_wfp_callout_state := with_id initial_state._ebpf_wfp_callout_state 1 0
              log := initial_state.log ++
                [⟨register_call 5 (initial_state._ebpf_wfp_callout_state 1), r1⟩,
                 ⟨callout_add_call initial_state._fwp_engine_handle
                    (initial_state._ebpf_wfp_callout_state 1), r2⟩,
                 ⟨filter_add_call initial_state._fwp_engine_handle
                    (initial_state._ebpf_wfp_callout_state 1), r3⟩,
                 ⟨.FwpsCalloutUnregisterById r1.out, ru⟩] })) :=
  ⟨by decide,
    wfp_failure (engine_failing second_filter_add STATUS_UNSUCCESSFUL) 1 5 initial_state
      (by decide)⟩

/-! ## The link-layer classify routine: the claim -/

/-- Claim C10: when the frame has a first network buffer and the program invocation
reports success with the raw verdict `r`, `ebpf_hook_layer_2_classify` sets the outgoing
action to block if `r` is `XDP_DROP` (2) and to permit for every other `r`
(`XDP_PASS`, `0`, `3`, ...), whatever the classify output held on entry. -/
theorem layer_2_verdict (NdisGetDataBuffer : NdisGetDataBuffer_t)
    (ebpf_core_invoke_hook : invoke_hook_t) (nbl : NET_BUFFER_LIST) (net_buffer : NET_BUFFER)
    (classify_output : FWPS_CLASSIFY_OUT) (r : Nat)
    (hnb : nbl.FirstNetBuffer = some net_buffer)
    (hinvoke : ebpf_core_invoke_hook .EBPF_PROGRAM_TYPE_XDP
      (.xdp (layer_2_ctx NdisGetDataBuffer net_buffer)) 0 = (.EBPF_ERROR_SUCCESS, r)) :
    (ebpf_hook_layer_2_classify NdisGetDataBuffer ebpf_core_invoke_hook (some nbl)
        classify_output).1.actionType =
      if r = XDP_DROP then .FWP_ACTION_BLOCK else .FWP_ACTION_PERMIT := by
  simp only [ebpf_hook_layer_2_classify, hnb, hinvoke, if_true]
  by_cases h1 : r = XDP_PASS
  · subst h1; simp [XDP_PASS, XDP_DROP]
  · by_cases h2 : r = XDP_DROP
    · subst h2; simp [XDP_PASS, XDP_DROP]
    · simp [h1, h2]

/-- Witness of C10: a program that answers `XDP_DROP` to a 60-byte frame at `4096`. -/
theorem layer_2_verdict_witness :
    (⟨some ⟨1, 60⟩⟩ : NET_BUFFER_LIST).FirstNetBuffer = some ⟨1, 60⟩ ∧
      (fun _ _ _ => (ebpf_error_code_t.EBPF_ERROR_SUCCESS, XDP_DROP) : invoke_hook_t)
          .EBPF_PROGRAM_TYPE_XDP
          (.xdp (layer_2_ctx (fun _ _ _ _ _ => 4096) ⟨1, 60⟩)) 0 =
        (.EBPF_ERROR_SUCCESS, XDP_DROP) ∧
      (ebpf_hook_layer_2_classify (fun _ _ _ _ _ => 4096)
          (fun _ _ _ => (ebpf_error_code_t.EBPF_ERROR_SUCCESS, XDP_DROP)) (some ⟨some ⟨1, 60⟩⟩)
          ⟨.FWP_ACTION_CALLOUT_TERMINATING⟩).1.actionType =
        (if XDP_DROP = XDP_DROP then FWP_ACTION_TYPE.FWP_ACTION_BLOCK
          else FWP_ACTION_TYPE.FWP_ACTION_PERMIT) :=
  ⟨rfl, rfl,
    layer_2_verdict (fun _ _ _ _ _ => 4096)
      (fun _ _ _ => (ebpf_error_code_t.EBPF_ERROR_SUCCESS, XDP_DROP)) ⟨some ⟨1, 60⟩⟩ ⟨1, 60⟩
      ⟨.FWP_ACTION_CALLOUT_TERMINATING⟩ XDP_DROP rfl rfl⟩

/-! ## The classify routines: the claims -/

/-- Claim C11, evaluated where the code departs from it. A successful invocation returns
the verdict `3` while the classify output holds block on entry:
`ebpf_hook_resource_allocation_classify` returns with the action still block, because its
switch has no default and nothing else stores an action. For the verdicts `0`, `1` and
`2` the action is permit, block and permit. -/
theorem allocation_unknown_verdict_keeps_action :
    (ebpf_hook_resource_allocation_classify (invoke_const .EBPF_ERROR_SUCCESS 3)
        (sample_values 40) sample_metadata sample_uninit 0
        ⟨.FWP_ACTION_BLOCK⟩).1.actionType = .FWP_ACTION_BLOCK ∧
      (ebpf_hook_resource_allocation_classify (invoke_const .EBPF_ERROR_SUCCESS BIND_PERMIT)
        (sample_values 40) sample_metadata sample_uninit 0
        ⟨.FWP_ACTION_BLOCK⟩).1.actionType = .FWP_ACTION_PERMIT ∧
      (ebpf_hook_resource_allocation_classify (invoke_const .EBPF_ERROR_SUCCESS BIND_DENY)
        (sample_values 40) sample_metadata sample_uninit 0
        ⟨.FWP_ACTION_PERMIT⟩).1.actionType = .FWP_ACTION_BLOCK ∧
      (ebpf_hook_resource_allocation_classify (invoke_const .EBPF_ERROR_SUCCESS BIND_REDIRECT)
        (sample_values 40) sample_metadata sample_uninit 0
        ⟨.FWP_ACTION_BLOCK⟩).1.actionType = .FWP_ACTION_PERMIT := by
  decide

/-- Claim C12: for a link-layer event whose frame has a first network buffer, if the
program invocation reports anything but success, `ebpf_hook_layer_2_classify` sets the
outgoing action to permit, whatever the invocation stored in the verdict variable and
whatever the classify output held on entry. -/
theorem layer_2_invoke_failure (NdisGetDataBuffer : NdisGetDataBuffer_t)
    (ebpf_core_invoke_hook : invoke_hook_t) (nbl : NET_BUFFER_LIST) (net_buffer : NET_BUFFER)
    (classify_output : FWPS_CLASSIFY_OUT)
    (hnb : nbl.FirstNetBuffer = some net_buffer)
    (hfail : (ebpf_core_invoke_hook .EBPF_PROGRAM_TYPE_XDP
      (.xdp (layer_2_ctx NdisGetDataBuffer net_buffer)) 0).1 ≠ .EBPF_ERROR_SUCCESS) :
    (ebpf_hook_layer_2_classify NdisGetDataBuffer ebpf_core_invoke_hook (some nbl)
        classify_output).1.actionType = .FWP_ACTION_PERMIT := by
  simp only [ebpf_hook_layer_2_classify, hnb]
  rcases hi : ebpf_core_invoke_hook .EBPF_PROGRAM_TYPE_XDP
      (.xdp (layer_2_ctx NdisGetDataBuffer net_buffer)) 0 with ⟨code, r⟩
  rw [hi] at hfail
  simp only at hfail
  simp [hfail]

/-- Witness of C12: the invocation fails after storing the verdict `XDP_DROP`, and the
classify output held block on entry. -/
theorem layer_2_invoke_failure_witness :
    (⟨some ⟨1, 60⟩⟩ : NET_BUFFER_LIST).FirstNetBuffer = some ⟨1, 60⟩ ∧
      (invoke_const (.other 1) XDP_DROP .EBPF_PROGRAM_TYPE_XDP
        (.xdp (layer_2_ctx (fun _ _ _ _ _ => 4096) ⟨1, 60⟩)) 0).1 ≠ .EBPF_ERROR_SUCCESS ∧
      (ebpf_hook_layer_2_classify (fun _ _ _ _ _ => 4096) (invoke_const (.other 1) XDP_DROP)
        (some ⟨some ⟨1, 60⟩⟩) ⟨.FWP_ACTION_BLOCK⟩).1.actionType = .FWP_ACTION_PERMIT :=
  ⟨rfl, by decide,
    layer_2_invoke_failure (fun _ _ _ _ _ => 4096) (invoke_const (.other 1) XDP_DROP)
      ⟨some ⟨1, 60⟩⟩ ⟨1, 60⟩ ⟨.FWP_ACTION_BLOCK⟩ rfl (by decide)⟩

/-- Claim C13, evaluated where the code departs from it. The program invocation reports
a failure while the classify output holds block on entry:
`ebpf_hook_resource_allocation_classify` returns without storing any action, so the
action is still block, not permit. -/
theorem allocation_invoke_failure_keeps_action :
    (ebpf_hook_resource_allocation_classify (invoke_silent (.other 1))
        (sample_values 40) sample_metadata sample_uninit 0
        ⟨.FWP_ACTION_BLOCK⟩).1.actionType = .FWP_ACTION_BLOCK ∧
      (ebpf_hook_resource_allocation_classify (invoke_silent (.other 1))
        (sample_values 40) sample_metadata sample_uninit 0 ⟨.FWP_ACTION_BLOCK⟩).1 =
        ⟨.FWP_ACTION_BLOCK⟩ := by
  decide

/-- Claim C14: when `ebpf_hook_layer_2_classify` is handed a null network-buffer list,
or a list whose first network buffer is absent, it sets the outgoing action to permit
and makes no call of the program invocation interface. -/
theorem layer_2_no_payload (NdisGetDataBuffer : NdisGetDataBuffer_t)
    (ebpf_core_invoke_hook : invoke_hook_t) (layer_data : Option NET_BUFFER_LIST)
    (classify_output : FWPS_CLASSIFY_OUT)
    (habsent : layer_data = none ∨ layer_data = some ⟨none⟩) :
    ebpf_hook_layer_2_classify NdisGetDataBuffer ebpf_core_invoke_hook layer_data
        classify_output =
      ({ classify_output with actionType := .FWP_ACTION_PERMIT }, []) := by
  rcases habsent with h | h <;> subst h <;> rfl

/-- Witness of C14: a list without a first network buffer, and a program that would
answer drop. -/
theorem layer_2_no_payload_witness :
    ((some ⟨none⟩ : Option NET_BUFFER_LIST) = none ∨
        (some ⟨none⟩ : Option NET_BUFFER_LIST) = some ⟨none⟩) ∧
      ebpf_hook_layer_2_classify (fun _ _ _ _ _ => 4096)
          (invoke_const .EBPF_ERROR_SUCCESS XDP_DROP) (some ⟨none⟩) ⟨.FWP_ACTION_BLOCK⟩ =
        ({ (⟨.FWP_ACTION_BLOCK⟩ : FWPS_CLASSIFY_OUT) with actionType := .FWP_ACTION_PERMIT },
          []) :=
  ⟨Or.inr rfl,
    layer_2_no_payload (fun _ _ _ _ _ => 4096) (invoke_const .EBPF_ERROR_SUCCESS XDP_DROP)
      (some ⟨none⟩) ⟨.FWP_ACTION_BLOCK⟩ (Or.inr rfl)⟩

/-- Claim C15: for every resource-allocation and every resource-release event, the
record passed to the program has `app_id_start` equal to the address of the data of the
application-identity blob (as a 64-bit value) and `app_id_end` equal to `app_id_start`
plus the size of the blob in 64-bit unsigned arithmetic; for a blob of size zero the two
are equal. -/
theorem bind_ctx_app_id (ebpf_core_invoke_hook : invoke_hook_t)
    (incoming_fixed_values : FWPS_INCOMING_VALUES)
    (incoming_metadata_values : FWPS_INCOMING_METADATA_VALUES)
    (ctx_uninit : bind_md_t) (result_uninit : Nat) (classify_output : FWPS_CLASSIFY_OUT) :
    (∃ ctx : bind_md_t,
      (ebpf_hook_resource_allocation_classify ebpf_core_invoke_hook incoming_fixed_values
        incoming_metadata_values ctx_uninit result_uninit classify_output).2 =
        [(.EBPF_PROGRAM_TYPE_BIND, .bind ctx)] ∧
      ctx.app_id_start = (incoming_fixed_values.incomingValue
        .FWPS_FIELD_ALE_RESOURCE_ASSIGNMENT_V4_ALE_APP_ID).value.byteBlob.data % 2 ^ 64 ∧
      ctx.app_id_end = (ctx.app_id_start + (incoming_fixed_values.incomingValue
        .FWPS_FIELD_ALE_RESOURCE_ASSIGNMENT_V4_ALE_APP_ID).value.byteBlob.size) % 2 ^ 64 ∧
      ((incoming_fixed_values.incomingValue
        .FWPS_FIELD_ALE_RESOURCE_ASSIGNMENT_V4_ALE_APP_ID).value.byteBlob.size = 0 →
        ctx.app_id_start = ctx.app_id_end)) ∧
    (∃ ctx : bind_md_t,
      (ebpf_hook_resource_release_classify ebpf_core_invoke_hook incoming_fixed_values
        incoming_metadata_values ctx_uninit result_uninit classify_output).2 =
        [(.EBPF_PROGRAM_TYPE_BIND, .bind ctx)] ∧
      ctx.app_id_start = (incoming_fixed_values.incomingValue
        .FWPS_FIELD_ALE_RESOURCE_RELEASE_V4_ALE_APP_ID).value.byteBlob.data % 2 ^ 64 ∧
      ctx.app_id_end = (ctx.app_id_start + (incoming_fixed_values.incomingValue
        .FWPS_FIELD_ALE_RESOURCE_RELEASE_V4_ALE_APP_ID).value.byteBlob.size) % 2 ^ 64 ∧
      ((incoming_fixed_values.incomingValue
        .FWPS_FIELD_ALE_RESOURCE_RELEASE_V4_ALE_APP_ID).value.byteBlob.size = 0 →
        ctx.app_id_start = ctx.app_id_end)) := by
  constructor
  · refine ⟨resource_allocation_ctx incoming_fixed_values incoming_metadata_values
      ctx_uninit, rfl, rfl, rfl, ?_⟩
    intro h
    simp [resource_allocation_ctx, h]
  · refine ⟨resource_release_ctx incoming_fixed_values incoming_metadata_values
      ctx_uninit, rfl, rfl, rfl, ?_⟩
    intro h
    simp [resource_release_ctx, h]

/-- Witness of C15: an event whose application-identity blob has size zero, at the
address `65536`. -/
theorem bind_ctx_app_id_witness :
    ((sample_values 0).incomingValue
        .FWPS_FIELD_ALE_RESOURCE_ASSIGNMENT_V4_ALE_APP_ID).value.byteBlob.size = 0 ∧
      (resource_allocation_ctx (sample_values 0) sample_metadata sample_uninit).app_id_start =
        65536 ∧
      ∃ ctx : bind_md_t,
        (ebpf_hook_resource_allocation_classify (invoke_const .EBPF_ERROR_SUCCESS BIND_PERMIT)
          (sample_values 0) sample_metadata sample_uninit 0 ⟨.FWP_ACTION_BLOCK⟩).2 =
          [(.EBPF_PROGRAM_TYPE_BIND, .bind ctx)] ∧
        ctx.app_id_start = ctx.app_id_end := by
  refine ⟨rfl, by decide, ?_⟩
  obtain ⟨ctx, h1, -, -, h4⟩ :=
    (bind_ctx_app_id (invoke_const .EBPF_ERROR_SUCCESS BIND_PERMIT) (sample_values 0)
      sample_metadata sample_uninit 0 ⟨.FWP_ACTION_BLOCK⟩).1
  exact ⟨ctx, h1, h4 rfl⟩

/-- Claim C16: for every resource-release event, whatever code the program invocation
reports and whatever verdict it stores, `ebpf_hook_resource_release_classify` calls the
invocation interface exactly once (with the BIND selector and the release record) and
sets the outgoing action to permit. -/
theorem release_always_permit (ebpf_core_invoke_hook : invoke_hook_t)
    (incoming_fixed_values : FWPS_INCOMING_VALUES)
    (incoming_metadata_values : FWPS_INCOMING_METADATA_VALUES)
    (ctx_uninit : bind_md_t) (result_uninit : Nat) (classify_output : FWPS_CLASSIFY_OUT) :
    (ebpf_hook_resource_release_classify ebpf_core_invoke_hook incoming_fixed_values
        incoming_metadata_values ctx_uninit result_uninit classify_output).1.actionType =
      .FWP_ACTION_PERMIT ∧
    (ebpf_hook_resource_release_classify ebpf_core_invoke_hook incoming_fixed_values
        incoming_metadata_values ctx_uninit result_uninit classify_output).2 =
      [(.EBPF_PROGRAM_TYPE_BIND,
        .bind (resource_release_ctx incoming_fixed_values incoming_metadata_values
          ctx_uninit))] ∧
    (ebpf_hook_resource_release_classify ebpf_core_invoke_hook incoming_fixed_values
        incoming_metadata_values ctx_uninit result_uninit classify_output).2.length = 1 :=
  ⟨rfl, rfl, rfl⟩

/-- Claim C17: for a frame with a first network buffer whose data, at the address
`NdisGetDataBuffer` returns, lies within the 64-bit address space, the record passed to
the program has `data` equal to that address, `data_end` equal to `data` plus
`DataLength` in 64-bit unsigned arithmetic and `data_meta` equal to `0`; and
`data_end >= data` with `data_end - data` equal to `DataLength`. -/
theorem layer_2_ctx_region (NdisGetDataBuffer : NdisGetDataBuffer_t)
    (ebpf_core_invoke_hook : invoke_hook_t) (nbl : NET_BUFFER_LIST) (net_buffer : NET_BUFFER)
    (classify_output : FWPS_CLASSIFY_OUT)
    (hnb : nbl.FirstNetBuffer = some net_buffer)
    (hfit : NdisGetDataBuffer net_buffer net_buffer.DataLength 0 2 0 +
      net_buffer.DataLength < 2 ^ 64) :
    ∃ ctx : xdp_md_t,
      (ebpf_hook_layer_2_classify NdisGetDataBuffer ebpf_core_invoke_hook (some nbl)
        classify_output).2 = [(.EBPF_PROGRAM_TYPE_XDP, .xdp ctx)] ∧
      ctx.data = NdisGetDataBuffer net_buffer net_buffer.DataLength 0 2 0 ∧
      ctx.data_end = (ctx.data + net_buffer.DataLength) % 2 ^ 64 ∧
      ctx.data_meta = 0 ∧
      ctx.data ≤ ctx.data_end ∧
      ctx.data_end - ctx.data = net_buffer.DataLength := by
  have hp : NdisGetDataBuffer net_buffer net_buffer.DataLength 0 2 0 < 2 ^ 64 := by omega
  have hd : (layer_2_ctx NdisGetDataBuffer net_buffer).data =
      NdisGetDataBuffer net_buffer net_buffer.DataLength 0 2 0 := by
    simp only [layer_2_ctx]
    exact Nat.mod_eq_of_lt hp
  have he : (layer_2_ctx NdisGetDataBuffer net_buffer).data_end =
      NdisGetDataBuffer net_buffer net_buffer.DataLength 0 2 0 + net_buffer.DataLength := by
    simp only [layer_2_ctx]
    rw [Nat.mod_eq_of_lt hp, Nat.mod_eq_of_lt hfit]
  refine ⟨layer_2_ctx NdisGetDataBuffer net_buffer, ?_, hd, ?_, rfl, ?_, ?_⟩
  · simp only [ebpf_hook_layer_2_classify, hnb]
  · rw [he, hd, Nat.mod_eq_of_lt hfit]
  · rw [he, hd]; omega
  · rw [he, hd]; omega

/-- Witness of C17: a 60-byte frame at the address `4096`. -/
theorem layer_2_ctx_region_witness :
    (⟨some ⟨1, 60⟩⟩ : NET_BUFFER_LIST).FirstNetBuffer = some ⟨1, 60⟩ ∧
      (fun _ _ _ _ _ => 4096 : NdisGetDataBuffer_t) ⟨1, 60⟩ (⟨1, 60⟩ : NET_BUFFER).DataLength
        0 2 0 + (⟨1, 60⟩ : NET_BUFFER).DataLength < 2 ^ 64 ∧
      ∃ ctx : xdp_md_t,
        (ebpf_hook_layer_2_classify (fun _ _ _ _ _ => 4096)
          (invoke_const .EBPF_ERROR_SUCCESS XDP_PASS) (some ⟨some ⟨1, 60⟩⟩)
          ⟨.FWP_ACTION_BLOCK⟩).2 = [(.EBPF_PROGRAM_TYPE_XDP, .xdp ctx)] ∧
        ctx.data = 4096 ∧
        ctx.data_end = (ctx.data + 60) % 2 ^ 64 ∧
        ctx.data_meta = 0 ∧
        ctx.data ≤ ctx.data_end ∧
        ctx.data_end - ctx.data = 60 :=
  ⟨rfl, by decide,
    layer_2_ctx_region (fun _ _ _ _ _ => 4096) (invoke_const .EBPF_ERROR_SUCCESS XDP_PASS)
      ⟨some ⟨1, 60⟩⟩ ⟨1, 60⟩ ⟨.FWP_ACTION_BLOCK⟩ rfl (by decide)⟩

/-- Claim C20: each classify routine calls the program with the selector and the record
of its own family. The link-layer routine uses the XDP selector and the link-layer
record. The resource-allocation routine uses the BIND selector and a bind record whose
`process_id` is the process id of the event, whose `operation` is `BIND_OPERATION_BIND`
(0), whose `protocol` is the IP protocol field of the allocation layer, and whose
16-byte `socket_address` is the image of an IPv4 socket address: family `AF_INET`, the
local port and the local address of the allocation layer, eight zero bytes. The
resource-release routine does the same from the fields of the release layer, with
`BIND_OPERATION_UNBIND` (2). -/
theorem classify_family (NdisGetDataBuffer : NdisGetDataBuffer_t)
    (ebpf_core_invoke_hook : invoke_hook_t) (nbl : NET_BUFFER_LIST) (net_buffer : NET_BUFFER)
    (incoming_fixed_values : FWPS_INCOMING_VALUES)
    (incoming_metadata_values : FWPS_INCOMING_METADATA_VALUES)
    (ctx_uninit : bind_md_t) (result_uninit : Nat) (classify_output : FWPS_CLASSIFY_OUT)
    (hnb : nbl.FirstNetBuffer = some net_buffer)
    (harray : ctx_uninit.socket_address.length = 16) :
    (ebpf_hook_layer_2_classify NdisGetDataBuffer ebpf_core_invoke_hook (some nbl)
        classify_output).2 =
      [(.EBPF_PROGRAM_TYPE_XDP, .xdp (layer_2_ctx NdisGetDataBuffer net_buffer))] ∧
    (∃ ctx : bind_md_t,
      (ebpf_hook_resource_allocation_classify ebpf_core_invoke_hook incoming_fixed_values
        incoming_metadata_values ctx_uninit result_uninit classify_output).2 =
        [(.EBPF_PROGRAM_TYPE_BIND, .bind ctx)] ∧
      ctx.process_id = incoming_metadata_values.processId ∧
      ctx.operation = BIND_OPERATION_BIND ∧ ctx.operation = 0 ∧
      ctx.protocol = (incoming_fixed_values.incomingValue
        .FWPS_FIELD_ALE_RESOURCE_ASSIGNMENT_V4_IP_PROTOCOL).value.uint8 ∧
      ctx.socket_address.length = 16 ∧
      ctx.socket_address = SOCKADDR_IN.bytes
        { sin_family := AF_INET
          sin_port := (incoming_fixed_values.incomingValue
            .FWPS_FIELD_ALE_RESOURCE_ASSIGNMENT_V4_IP_LOCAL_PORT).value.uint16
          sin_addr := (incoming_fixed_values.incomingValue
            .FWPS_FIELD_ALE_RESOURCE_ASSIGNMENT_V4_IP_LOCAL_ADDRESS).value.uint32
          sin_zero := [0, 0, 0, 0, 0, 0, 0, 0] }) ∧
    (∃ ctx : bind_md_t,
      (ebpf_hook_resource_release_classify ebpf_core_invoke_hook incoming_fixed_values
        incoming_metadata_values ctx_uninit result_uninit classify_output).2 =
        [(.EBPF_PROGRAM_TYPE_BIND, .bind ctx)] ∧
      ctx.process_id = incoming_metadata_values.processId ∧
      ctx.operation = BIND_OPERATION_UNBIND ∧ ctx.operation = 2 ∧
      ctx.protocol = (incoming_fixed_values.incomingValue
        .FWPS_FIELD_ALE_RESOURCE_RELEASE_V4_IP_PROTOCOL).value.uint8 ∧
      ctx.socket_address.length = 16 ∧
      ctx.socket_address = SOCKADDR_IN.bytes
        { sin_family := AF_INET
          sin_port := (incoming_fixed_values.incomingValue
            .FWPS_FIELD_ALE_RESOURCE_RELEASE_V4_IP_LOCAL_PORT).value.uint16
          sin_addr := (incoming_fixed_values.incomingValue
            .FWPS_FIELD_ALE_RESOURCE_RELEASE_V4_IP_LOCAL_ADDRESS).value.uint32
          sin_zero := [0, 0, 0, 0, 0, 0, 0, 0] }) := by
  have hdrop : ctx_uninit.socket_address.drop 16 = [] := by
    rw [List.drop_eq_nil_iff]; omega
  refine ⟨?_, ?_, ?_⟩
  · simp only [ebpf_hook_layer_2_classify, hnb]
  · refine ⟨resource_allocation_ctx incoming_fixed_values incoming_metadata_values
      ctx_uninit, rfl, rfl, rfl, rfl, rfl, ?_, ?_⟩
    · simp [resource_allocation_ctx, memcpy, sizeof_SOCKADDR_IN, SOCKADDR_IN.bytes,
        SOCKADDR_IN.init, hdrop]
    · simp [resource_allocation_ctx, memcpy, sizeof_SOCKADDR_IN, SOCKADDR_IN.bytes,
        SOCKADDR_IN.init, hdrop]
  · refine ⟨resource_release_ctx incoming_fixed_values incoming_metadata_values
      ctx_uninit, rfl, rfl, rfl, rfl, rfl, ?_, ?_⟩
    · simp [resource_release_ctx, memcpy, sizeof_SOCKADDR_IN, SOCKADDR_IN.bytes,
        SOCKADDR_IN.init, hdrop]
    · simp [resource_release_ctx, memcpy, sizeof_SOCKADDR_IN, SOCKADDR_IN.bytes,
        SOCKADDR_IN.init, hdrop]

/-- Witness of C20: the sample event; the socket address bytes of its allocation record
are `02 00 90 1F 7F 00 00 01` and eight zero bytes. -/
theorem classify_family_witness :
    (⟨some ⟨1, 60⟩⟩ : NET_BUFFER_LIST).FirstNetBuffer = some ⟨1, 60⟩ ∧
      sample_uninit.socket_address.length = 16 ∧
      (resource_allocation_ctx (sample_values 40) sample_metadata
        sample_uninit).socket_address =
        [2, 0, 144, 31, 127, 0, 0, 1, 0, 0, 0, 0, 0, 0, 0, 0] ∧
      (ebpf_hook_layer_2_classify (fun _ _ _ _ _ => 4096)
          (invoke_const .EBPF_ERROR_SUCCESS XDP_PASS) (some ⟨some ⟨1, 60⟩⟩)
          ⟨.FWP_ACTION_BLOCK⟩).2 =
        [(.EBPF_PROGRAM_TYPE_XDP, .xdp (layer_2_ctx (fun _ _ _ _ _ => 4096) ⟨1, 60⟩))] :=
  ⟨rfl, by decide, by decide,
    (classify_family (fun _ _ _ _ _ => 4096) (invoke_const .EBPF_ERROR_SUCCESS XDP_PASS)
      ⟨some ⟨1, 60⟩⟩ ⟨1, 60⟩ (sample_values 40) sample_metadata sample_uninit 0
      ⟨.FWP_ACTION_BLOCK⟩ rfl (by decide)).1⟩

/-! ## Unwinding: lemmas -/

/-- Successful transaction steps followed by successful transaction steps. -/
theorem body_ok_append {a b : List Event} (ha : BodyOk a) (hb : BodyOk b) :
    BodyOk (a ++ b) := by
  intro ev hev
  rcases List.mem_append.1 hev with h | h
  · exact ha ev h
  · exact hb ev h

/-- Successful transaction steps in front of a failed run of them. -/
theorem body_failed_prepend {st : NTSTATUS} {a b : List Event} (ha : BodyOk a)
    (hb : BodyFailedAt st b) : BodyFailedAt st (a ++ b) := by
  obtain ⟨pre, ev, post, rfl, hpre, hev, hst, hpost⟩ := hb
  exact ⟨a ++ pre, ev, post, by simp, body_ok_append ha hpre, hev, hst, hpost⟩

/-- The calls of one descriptor registration, as steps inside the transaction. -/
theorem wfp_body (e : Engine) (index : Fin RTL_COUNT_OF) (dev : Nat) (s : State) :
    ∃ new, (ebpf_hook_register_wfp_callout e index dev s).2.log = s.log ++ new ∧
      ((NT_SUCCESS (ebpf_hook_register_wfp_callout e index dev s).1 = true ∧ BodyOk new) ∨
       (NT_SUCCESS (ebpf_hook_register_wfp_callout e index dev s).1 = false ∧
         BodyFailedAt (ebpf_hook_register_wfp_callout e index dev s).1 new)) := by
  obtain ⟨r1, r2, r3, ru, h⟩ := wfp_cases e index dev s
  rcases h with ⟨h1, h⟩ | ⟨h1, h2, h⟩ | ⟨h1, h2, h3, h⟩ | ⟨h1, h2, h3, h⟩ <;> rw [h]
  · exact ⟨_, rfl, Or.inr ⟨h1, [], _, [], rfl, by simp [BodyOk], rfl, rfl, by simp⟩⟩
  · refine ⟨_, rfl, Or.inr ⟨h2, [_], _, [_], rfl, ?_, rfl, rfl, ?_⟩⟩
    · simp [BodyOk, register_call, Call.is_in_transaction, h1]
    · simp [Call.is_unregister]
  · refine ⟨_, rfl, Or.inr ⟨h3, [_, _], _, [_], rfl, ?_, rfl, rfl, ?_⟩⟩
    · simp [BodyOk, register_call, callout_add_call, Call.is_in_transaction, h1, h2]
    · simp [Call.is_unregister]
  · refine ⟨_, rfl, Or.inl ⟨h3, ?_⟩⟩
    simp [BodyOk, register_call, callout_add_call, filter_add_call, Call.is_in_transaction,
      h1, h2, h3]

/-- The calls of the registration loop, as steps inside the transaction. -/
theorem loop_body (e : Engine) (dev : Nat) (l : List (Fin RTL_COUNT_OF)) :
    ∀ (st : NTSTATUS) (s : State),
      ∃ new, (ebpf_hook_register_callouts_loop e dev l st s).2.2.log = s.log ++ new ∧
        (((ebpf_hook_register_callouts_loop e dev l st s).1 = true ∧ BodyOk new) ∨
         ((ebpf_hook_register_callouts_loop e dev l st s).1 = false ∧
           BodyFailedAt (ebpf_hook_register_callouts_loop e dev l st s).2.1 new)) := by
  induction l with
  | nil =>
    intro st s
    exact ⟨[], by simp [ebpf_hook_register_callouts_loop], Or.inl ⟨rfl, by simp [BodyOk]⟩⟩
  | cons index rest ih =>
    intro st s
    obtain ⟨new1, hlog1, h1⟩ := wfp_body e index dev s
    simp only [ebpf_hook_register_callouts_loop]
    rcases h1 with ⟨hok, hsteps⟩ | ⟨hbad, hfailed⟩
    · simp only [hok, Bool.not_true, Bool.false_eq_true, if_false]
      obtain ⟨new2, hlog2, h2⟩ := ih (ebpf_hook_register_wfp_callout e index dev s).1
        (ebpf_hook_register_wfp_callout e index dev s).2
      refine ⟨new1 ++ new2, by rw [hlog2, hlog1, List.append_assoc], ?_⟩
      rcases h2 with ⟨hc, hs2⟩ | ⟨hc, hf2⟩
      · exact Or.inl ⟨hc, body_ok_append hsteps hs2⟩
      · exact Or.inr ⟨hc, body_failed_prepend hsteps hf2⟩
    · simp only [hbad, Bool.not_false, if_true]
      exact ⟨new1, hlog1, Or.inr ⟨trivial, hfailed⟩⟩

/-- A step inside the transaction is a step, and none of open, begin, abort, close. -/
theorem in_transaction_kind (c : Call) (h : c.is_in_transaction = true) :
    c.is_step = true ∧ c.is_open = false ∧ c.is_begin = false ∧ c.is_abort = false ∧
      c.is_close = false := by
  cases c <;> simp_all [Call.is_in_transaction, Call.is_step, Call.is_open, Call.is_begin,
    Call.is_abort, Call.is_close]

/-- An unregister call is none of open, begin, abort, close. -/
theorem unregister_kind (c : Call) (h : c.is_unregister = true) :
    c.is_open = false ∧ c.is_begin = false ∧ c.is_abort = false ∧ c.is_close = false := by
  cases c <;> simp_all [Call.is_unregister, Call.is_open, Call.is_begin, Call.is_abort,
    Call.is_close]

/-- The shape of a failed registration: the calls before the failing step, the failing
step, and the unwinding calls after it, by the place of the failure. -/
theorem register_unwind_shape (e : Engine) (dev : Nat) (s : State)
    (hclosed : s._fwp_engine_handle = NULL)
    (hfail : NT_SUCCESS (ebpf_hook_register_callouts e dev s).1 = false) :
    ∃ pre ev post,
      (ebpf_hook_register_callouts e dev s).2.log = s.log ++ (pre ++ ev :: post) ∧
      ev.resp.status = (ebpf_hook_register_callouts e dev s).1 ∧
      ((pre = [] ∧ ev.call = .FwpmEngineOpen ∧ post = []) ∨
       (∃ ro rx, NT_SUCCESS ro.status = true ∧ pre = [⟨.FwpmEngineOpen, ro⟩] ∧
          ev.call = .FwpmTransactionBegin ro.out ∧
          post = [⟨.FwpmEngineClose ro.out, rx⟩]) ∨
       (∃ ro rb mid unreg ra rx, NT_SUCCESS ro.status = true ∧ NT_SUCCESS rb.status = true ∧
          pre = ⟨.FwpmEngineOpen, ro⟩ :: ⟨.FwpmTransactionBegin ro.out, rb⟩ :: mid ∧
          BodyOk mid ∧ ev.call.is_in_transaction = true ∧
          (∀ x ∈ unreg, x.call.is_unregister = true) ∧
          post = unreg ++ [⟨.FwpmTransactionAbort ro.out, ra⟩,
            ⟨.FwpmEngineClose ro.out, rx⟩])) := by
  obtain ⟨ro, rb, rs, rc, ra, rx, h⟩ := register_cases e dev s hclosed
  simp only at h
  rcases h with ⟨h1, h⟩ | ⟨h1, h2, h⟩ | ⟨h1, h2, h3, h⟩ | ⟨h1, h2, h3, hL, h⟩ |
    ⟨h1, h2, h3, hL, h4, h⟩ | ⟨h1, h2, h3, hL, h4, h⟩
  · rw [h]
    exact ⟨[], ⟨.FwpmEngineOpen, ro⟩, [], rfl, rfl, Or.inl ⟨rfl, rfl, rfl⟩⟩
  · rw [h]
    exact ⟨[⟨.FwpmEngineOpen, ro⟩], ⟨.FwpmTransactionBegin ro.out, rb⟩,
      [⟨.FwpmEngineClose ro.out, rx⟩], rfl, rfl, Or.inr (Or.inl ⟨ro, rx, h1, rfl, rfl, rfl⟩)⟩
  · rw [h]
    refine ⟨[⟨.FwpmEngineOpen, ro⟩, ⟨.FwpmTransactionBegin ro.out, rb⟩],
      ⟨.FwpmSubLayerAdd ro.out .EBPF_HOOK_SUBLAYER, rs⟩,
      [⟨.FwpmTransactionAbort ro.out, ra⟩, ⟨.FwpmEngineClose ro.out, rx⟩], by simp, rfl,
      Or.inr (Or.inr ⟨ro, rb, [], [], ra, rx, h1, h2, rfl, by simp [BodyOk], rfl,
        by simp, rfl⟩)⟩
  · obtain ⟨newL, hlogL, hrun⟩ := loop_body e dev (List.finRange RTL_COUNT_OF) rs.status
      { _fwp_engine_handle := ro.out
        _ebpf_wfp_callout_state := s._ebpf_wfp_callout_state
        log := s.log ++ [⟨.FwpmEngineOpen, ro⟩, ⟨.FwpmTransactionBegin ro.out, rb⟩,
          ⟨.FwpmSubLayerAdd ro.out .EBPF_HOOK_SUBLAYER, rs⟩] }
    simp only [hL, Bool.true_eq_false, Bool.false_eq_true, false_and, or_false, false_or,
      true_and] at hrun
    obtain ⟨preL, evL, postL, rfl, hpreL, hevL, hstL, hpostL⟩ := hrun
    rw [h]
    simp only [hlogL]
    refine ⟨⟨.FwpmEngineOpen, ro⟩ :: ⟨.FwpmTransactionBegin ro.out, rb⟩ ::
        (⟨.FwpmSubLayerAdd ro.out .EBPF_HOOK_SUBLAYER, rs⟩ :: preL), evL,
      postL ++ [⟨.FwpmTransactionAbort ro.out, ra⟩, ⟨.FwpmEngineClose ro.out, rx⟩],
      by simp, hstL,
      Or.inr (Or.inr ⟨ro, rb, _, postL, ra, rx, h1, h2, rfl, ?_, hevL, hpostL, rfl⟩)⟩
    intro x hx
    rcases List.mem_cons.1 hx with hx | hx
    · subst hx; exact ⟨rfl, h3⟩
    · exact hpreL x hx
  · obtain ⟨newL, hlogL, hrun⟩ := loop_body e dev (List.finRange RTL_COUNT_OF) rs.status
      { _fwp_engine_handle := ro.out
        _ebpf_wfp_callout_state := s._ebpf_wfp_callout_state
        log := s.log ++ [⟨.FwpmEngineOpen, ro⟩, ⟨.FwpmTransactionBegin ro.out, rb⟩,
          ⟨.FwpmSubLayerAdd ro.out .EBPF_HOOK_SUBLAYER, rs⟩] }
    simp only [hL, Bool.true_eq_false, Bool.false_eq_true, false_and, or_false, false_or,
      true_and] at hrun
    rw [h]
    simp only [hlogL]
    refine ⟨⟨.FwpmEngineOpen, ro⟩ :: ⟨.FwpmTransactionBegin ro.out, rb⟩ ::
        (⟨.FwpmSubLayerAdd ro.out .EBPF_HOOK_SUBLAYER, rs⟩ :: newL),
      ⟨.FwpmTransactionCommit ro.out, rc⟩,
      [⟨.FwpmTransactionAbort ro.out, ra⟩, ⟨.FwpmEngineClose ro.out, rx⟩],
      by simp, rfl,
      Or.inr (Or.inr ⟨ro, rb, _, [], ra, rx, h1, h2, rfl, ?_, rfl, by simp, rfl⟩)⟩
    intro x hx
    rcases List.mem_cons.1 hx with hx | hx
    · subst hx; exact ⟨rfl, h3⟩
    · exact hrun x hx
  · rw [h] at hfail
    simp [h4] at hfail

/-- A filter that rejects every element leaves nothing. -/
theorem filter_none {α : Type} (p : α → Bool) (l : List α) (h : ∀ x ∈ l, p x = false) :
    l.filter p = [] := by
  induction l with
  | nil => rfl
  | cons a rest ih =>
    have ha := h a (by simp)
    have hr := ih (fun x hx => h x (by simp [hx]))
    simp [List.filter_cons, ha, hr]

/-! ## Unwinding and teardown: the claims -/

/-- Claim C19: in a run of `ebpf_hook_register_callouts` that returns failure, the calls
are the steps before the failing one (all succeeded), the failing step, and the
unwinding. If the failing step is the session open, nothing precedes and nothing
follows it. If it is the transaction begin, the open precedes it and the close of the
opened session alone follows. Otherwise (sub-layer add, a step of a descriptor, commit)
open and begin succeeded before it and it is followed by unregister calls at most, then
the abort of the transaction, then the close of the session. So the abort is called
once exactly when the begin had succeeded, the close once exactly when the open had
succeeded, and the abort comes before the close. -/
theorem register_unwind (e : Engine) (device_object : Nat) (s : State)
    (hclosed : s._fwp_engine_handle = NULL)
    (hfail : NT_SUCCESS (ebpf_hook_register_callouts e device_object s).1 = false) :
    ∃ pre ev post,
      (ebpf_hook_register_callouts e device_object s).2.log = s.log ++ (pre ++ ev :: post) ∧
      ev.resp.status = (ebpf_hook_register_callouts e device_object s).1 ∧
      ((pre = [] ∧ ev.call = .FwpmEngineOpen ∧ post = []) ∨
       (∃ ro rx, NT_SUCCESS ro.status = true ∧ pre = [⟨.FwpmEngineOpen, ro⟩] ∧
          ev.call = .FwpmTransactionBegin ro.out ∧
          post = [⟨.FwpmEngineClose ro.out, rx⟩]) ∨
       (∃ ro rb mid unreg ra rx, NT_SUCCESS ro.status = true ∧ NT_SUCCESS rb.status = true ∧
          pre = ⟨.FwpmEngineOpen, ro⟩ :: ⟨.FwpmTransactionBegin ro.out, rb⟩ :: mid ∧
          (∀ x ∈ mid, x.call.is_in_transaction = true ∧ NT_SUCCESS x.resp.status = true) ∧
          ev.call.is_in_transaction = true ∧
          (∀ x ∈ unreg, x.call.is_unregister = true) ∧
          post = unreg ++ [⟨.FwpmTransactionAbort ro.out, ra⟩,
            ⟨.FwpmEngineClose ro.out, rx⟩])) ∧
      ((pre ++ ev :: post).filter fun x => x.call.is_abort).length =
        ((pre ++ ev :: post).filter fun x =>
          x.call.is_begin && NT_SUCCESS x.resp.status).length ∧
      ((pre ++ ev :: post).filter fun x => x.call.is_abort).length ≤ 1 ∧
      ((pre ++ ev :: post).filter fun x => x.call.is_close).length =
        ((pre ++ ev :: post).filter fun x =>
          x.call.is_open && NT_SUCCESS x.resp.status).length ∧
      ((pre ++ ev :: post).filter fun x => x.call.is_close).length ≤ 1 := by
  obtain ⟨pre, ev, post, hlog, hst, hshape⟩ :=
    register_unwind_shape e device_object s hclosed hfail
  have hevbad : NT_SUCCESS ev.resp.status = false := by rw [hst]; exact hfail
  refine ⟨pre, ev, post, hlog, hst, hshape, ?_⟩
  rcases hshape with ⟨rfl, hev, rfl⟩ |
    ⟨ro, rx, hro, rfl, hev, rfl⟩ |
    ⟨ro, rb, mid, unreg, ra, rx, hro, hrb, rfl, hmid, hev, hunreg, rfl⟩
  · simp [List.filter_cons, hev, Call.is_abort, Call.is_begin, Call.is_close, Call.is_open,
      hevbad]
  · simp [List.filter_cons, hev, Call.is_abort, Call.is_begin, Call.is_close, Call.is_open,
      hevbad, hro]
  · have m1 := filter_none (fun x : Event => x.call.is_abort) mid
      (fun x hx => (in_transaction_kind x.call (hmid x hx).1).2.2.2.1)
    have m2 := filter_none (fun x : Event => x.call.is_begin && NT_SUCCESS x.resp.status) mid
      (fun x hx => by simp [(in_transaction_kind x.call (hmid x hx).1).2.2.1])
    have m3 := filter_none (fun x : Event => x.call.is_close) mid
      (fun x hx => (in_transaction_kind x.call (hmid x hx).1).2.2.2.2)
    have m4 := filter_none (fun x : Event => x.call.is_open && NT_SUCCESS x.resp.status) mid
      (fun x hx => by simp [(in_transaction_kind x.call (hmid x hx).1).2.1])
    have u1 := filter_none (fun x : Event => x.call.is_abort) unreg
      (fun x hx => (unregister_kind x.call (hunreg x hx)).2.2.1)
    have u2 := filter_none (fun x : Event => x.call.is_begin && NT_SUCCESS x.resp.status)
      unreg (fun x hx => by simp [(unregister_kind x.call (hunreg x hx)).2.1])
    have u3 := filter_none (fun x : Event => x.call.is_close) unreg
      (fun x hx => (unregister_kind x.call (hunreg x hx)).2.2.2)
    have u4 := filter_none (fun x : Event => x.call.is_open && NT_SUCCESS x.resp.status)
      unreg (fun x hx => by simp [(unregister_kind x.call (hunreg x hx)).1])
    have k := in_transaction_kind ev.call hev
    simp only [List.filter_cons, List.filter_append, List.cons_append, List.nil_append,
      List.filter_nil, m1, m2, m3, m4, u1, u2, u3, u4, k.2.1, k.2.2.1, k.2.2.2.1,
      k.2.2.2.2, Bool.false_and, Bool.false_eq_true, if_false]
    simp [Call.is_abort, Call.is_begin, Call.is_close, Call.is_open, hro, hrb]

/-- Witness of C19: the filter-add of the second descriptor fails from the initial
state. -/
theorem register_unwind_witness :
    initial_state._fwp_engine_handle = NULL ∧
      NT_SUCCESS (ebpf_hook_register_callouts
        (engine_failing second_filter_add STATUS_UNSUCCESSFUL) 5 initial_state).1 = false ∧
      ∃ pre ev post,
        (ebpf_hook_register_callouts (engine_failing second_filter_add STATUS_UNSUCCESSFUL) 5
          initial_state).2.log = initial_state.log ++ (pre ++ ev :: post) ∧
        ((pre ++ ev :: post).filter fun x => x.call.is_abort).length ≤ 1 ∧
        ((pre ++ ev :: post).filter fun x => x.call.is_close).length ≤ 1 := by
  refine ⟨rfl, by decide, ?_⟩
  obtain ⟨pre, ev, post, hlog, -, -, -, ha, -, hc⟩ :=
    register_unwind (engine_failing second_filter_add STATUS_UNSUCCESSFUL) 5 initial_state
      rfl (by decide)
  exact ⟨pre, ev, post, hlog, ha, hc⟩

/-- The calls of a teardown with a session open: the close of the stored handle, then
`FwpsCalloutUnregisterById` for the three descriptors in table order; the table is left
as it was and the handle is `NULL` on return. -/
theorem unregister_cases (e : Engine) (s : State) (hopen : s._fwp_engine_handle ≠ NULL) :
    ∃ rx u0 u1 u2 : Resp,
      ebpf_hook_unregister_callouts e s =
        { _fwp_engine_handle := NULL
          _ebpf_wfp_callout_state := s._ebpf_wfp_callout_state
          log := s.log ++
            [⟨.FwpmEngineClose s._fwp_engine_handle, rx⟩,
             ⟨.FwpsCalloutUnregisterById (s._ebpf_wfp_callout_state 0).assigned_callout_id, u0⟩,
             ⟨.FwpsCalloutUnregisterById (s._ebpf_wfp_callout_state 1).assigned_callout_id, u1⟩,
             ⟨.FwpsCalloutUnregisterById (s._ebpf_wfp_callout_state 2).assigned_callout_id,
               u2⟩] } := by
  simp only [ebpf_hook_unregister_callouts, hopen, if_true, ne_eq, not_false_eq_true,
    finRange_count, ebpf_hook_unregister_callouts_loop, engine_call]
  generalize e s.log _ = rx
  generalize e _ _ = u0
  generalize e _ _ = u1
  generalize e _ _ = u2
  refine ⟨rx, u0, u1, u2, ?_⟩
  simp
  rfl

/-- Claim C18: when a session is open, so that every descriptor holds the non-zero id
the engine assigned to it at registration, the engine calls that
`ebpf_hook_unregister_callouts` makes are exactly the close of the stored session
handle, once, followed by `FwpsCalloutUnregisterById` for the descriptors in table order
by their assigned ids, those with an unset id left out; no call is made with the id `0`;
the table is left as it was; and the session handle is `NULL` on return, whatever the
engine answers to the calls. -/
theorem unregister_open_calls (e : Engine) (s : State)
    (hopen : s._fwp_engine_handle ≠ NULL)
    (hlive : ∀ i, (s._ebpf_wfp_callout_state i).assigned_callout_id ≠ 0) :
    ∃ new : List Event,
      (ebpf_hook_unregister_callouts e s).log = s.log ++ new ∧
      new.map Event.call =
        .FwpmEngineClose s._fwp_engine_handle ::
          ((assigned_ids s).filter fun id => id ≠ 0).map Call.FwpsCalloutUnregisterById ∧
      new.length = 4 ∧
      (∀ ev ∈ new, ev.call ≠ .FwpsCalloutUnregisterById 0) ∧
      (ebpf_hook_unregister_callouts e s)._ebpf_wfp_callout_state =
        s._ebpf_wfp_callout_state ∧
      (ebpf_hook_unregister_callouts e s)._fwp_engine_handle = NULL := by
  obtain ⟨rx, u0, u1, u2, h⟩ := unregister_cases e s hopen
  have h0 := hlive 0
  have h1 := hlive 1
  have h2 := hlive 2
  rw [h]
  refine ⟨_, rfl, ?_, rfl, ?_, rfl, rfl⟩
  · simp [assigned_ids, finRange_count, List.filter_cons, h0, h1, h2]
  · intro ev hev
    simp only [List.mem_cons, List.mem_singleton, List.not_mem_nil, or_false] at hev
    rcases hev with rfl | rfl | rfl | rfl
    · simp
    · simpa using h0
    · simpa using h1
    · simpa using h2

/-- Witness of C18: the session opened by a registration with `engine_ok`, whose ids are
`104`, `107` and `110`; teardown closes the session `77` and unregisters these three. -/
theorem unregister_open_calls_witness :
    (ebpf_hook_register_callouts engine_ok 5 initial_state).2._fwp_engine_handle ≠ NULL ∧
      (∀ i, ((ebpf_hook_register_callouts engine_ok 5
        initial_state).2._ebpf_wfp_callout_state i).assigned_callout_id ≠ 0) ∧
      (∃ new : List Event,
        (ebpf_hook_unregister_callouts engine_ok
          (ebpf_hook_register_callouts engine_ok 5 initial_state).2).log =
          (ebpf_hook_register_callouts engine_ok 5 initial_state).2.log ++ new ∧
        new.map Event.call =
          .FwpmEngineClose
              (ebpf_hook_register_callouts engine_ok 5 initial_state).2._fwp_engine_handle ::
            ((assigned_ids (ebpf_hook_register_callouts engine_ok 5 initial_state).2).filter
              fun id => id ≠ 0).map Call.FwpsCalloutUnregisterById ∧
        new.length = 4 ∧
        (∀ ev ∈ new, ev.call ≠ .FwpsCalloutUnregisterById 0) ∧
        (ebpf_hook_unregister_callouts engine_ok
          (ebpf_hook_register_callouts engine_ok 5 initial_state).2)._ebpf_wfp_callout_state =
          (ebpf_hook_register_callouts engine_ok 5 initial_state).2._ebpf_wfp_callout_state ∧
        (ebpf_hook_unregister_callouts engine_ok
          (ebpf_hook_register_callouts engine_ok 5 initial_state).2)._fwp_engine_handle =
          NULL) ∧
      (((ebpf_hook_unregister_callouts engine_ok
          (ebpf_hook_register_callouts engine_ok 5 initial_state).2).log.drop
          (ebpf_hook_register_callouts engine_ok 5 initial_state).2.log.length).map
          Event.call) =
        [.FwpmEngineClose 77, .FwpsCalloutUnregisterById 104, .FwpsCalloutUnregisterById 107,
          .FwpsCalloutUnregisterById 110] :=
  ⟨by decide, by decide,
    unregister_open_calls engine_ok (ebpf_hook_register_callouts engine_ok 5 initial_state).2
      (by decide) (by decide),
    by decide⟩

/-! ## The context records: the last claims -/

/-- Claim C21, evaluated where the code departs from it. For the sample bind event, with
a stack whose bytes are all `0xCC`, the record that each bind routine passes to the
program holds the 16 bytes of the IPv4 socket address in `socket_address`, while
`socket_address_length` is `204`, the value the stack held: neither routine assigns the
field. -/
theorem bind_ctx_length_unassigned :
    (ebpf_hook_resource_allocation_classify (invoke_const .EBPF_ERROR_SUCCESS BIND_PERMIT)
        (sample_values 40) sample_metadata sample_uninit 0 ⟨.FWP_ACTION_BLOCK⟩).2 =
      [(.EBPF_PROGRAM_TYPE_BIND,
        .bind (resource_allocation_ctx (sample_values 40) sample_metadata sample_uninit))] ∧
    (resource_allocation_ctx (sample_values 40) sample_metadata
      sample_uninit).socket_address.length = 16 ∧
    (resource_allocation_ctx (sample_values 40) sample_metadata
      sample_uninit).socket_address_length = 204 ∧
    (ebpf_hook_resource_release_classify (invoke_const .EBPF_ERROR_SUCCESS BIND_PERMIT)
        (sample_values 40) sample_metadata sample_uninit 0 ⟨.FWP_ACTION_BLOCK⟩).2 =
      [(.EBPF_PROGRAM_TYPE_BIND,
        .bind (resource_release_ctx (sample_values 40) sample_metadata sample_uninit))] ∧
    (resource_release_ctx (sample_values 40) sample_metadata
      sample_uninit).socket_address.length = 16 ∧
    (resource_release_ctx (sample_values 40) sample_metadata
      sample_uninit).socket_address_length = 204 := by
  decide

/-- Claim C22, evaluated where the code departs from it. The frame has a first network
buffer of `DataLength` 60 and `NdisGetDataBuffer` returns a null pointer: the record
passed to the program has `data` equal to `0` and `data_end` equal to `60`, not `0`,
because the result of `NdisGetDataBuffer` is used without a null test. -/
theorem layer_2_null_buffer_region :
    (ebpf_hook_layer_2_classify (fun _ _ _ _ _ => 0)
        (invoke_const .EBPF_ERROR_SUCCESS XDP_PASS) (some ⟨some ⟨1, 60⟩⟩)
        ⟨.FWP_ACTION_BLOCK⟩).2 =
      [(.EBPF_PROGRAM_TYPE_XDP, .xdp { data := 0, data_end := 60, data_meta := 0 })] := by
  decide

end EbpfL2Hook
